import Mathlib

/-!
Verification development for the JSON structure analysis and hierarchical
spreadsheet layout engine of the PDF_To_Excel repository
(`Json_to_Excel/Components`): the `JsonAnalyzer` structure inference
(`Components/json/analyzer.py`), the schema accumulation of
`ExcelGenerator.create_excel_file` (`Components/excel/generator.py`), the
column planning of `ExcelFormatter` (`Components/excel/formatter.py`) and the
row rendering of `ExcelDataWriter` (`Components/excel/data_writer.py`).

JSON values are modelled by the mutual inductive `JValue`/`JArr`/`JObj`
(strings, integers, arrays, insertion-ordered objects — the shapes the engine
dispatches on).  Python dict-valued analysis results are modelled by Lean
structures whose optional members are `Option`-valued; reading an absent
member (Python `KeyError`) and the other exceptions the code can raise are
modelled with `Except String`.  Python `set` objects are modelled by
duplicate-free lists with membership-tested insertion (`setAdd`/`setUnion`),
and Python `sorted` on strings by an insertion sort over the code-point
lexicographic order `pyLe` (Python compares strings by code points).
-/

mutual
inductive JValue where
  | str : String → JValue
  | int : Int → JValue
  | list : JArr → JValue
  | obj : JObj → JValue

inductive JArr where
  | nil : JArr
  | cons : JValue → JArr → JArr

inductive JObj where
  | nil : JObj
  | cons : String → JValue → JObj → JObj
end

/-- Build a `JArr` from a Lean list (convenience for concrete inputs). -/
def jarr : List JValue → JArr
  | [] => .nil
  | v :: vs => .cons v (jarr vs)

/-- Build a JSON array value from a Lean list. -/
def jlist (l : List JValue) : JValue := .list (jarr l)

/-- Build a `JObj` from a Lean association list (insertion order preserved,
mirroring Python dict order). -/
def jobj : List (String × JValue) → JObj
  | [] => .nil
  | (k, v) :: kvs => .cons k v (jobj kvs)

/-- Build a JSON object value from a Lean association list. -/
def jdict (l : List (String × JValue)) : JValue := .obj (jobj l)

/-- Python `isinstance(value, list)`. -/
def JValue.isList : JValue → Bool
  | .list _ => true
  | _ => false

/-- Python `isinstance(value, dict)`. -/
def JValue.isDict : JValue → Bool
  | .obj _ => true
  | _ => false

/-- Python `isinstance(value, str)`. -/
def JValue.isStr : JValue → Bool
  | .str _ => true
  | _ => false

def JArr.length : JArr → Nat
  | .nil => 0
  | .cons _ t => t.length + 1

def JArr.toList : JArr → List JValue
  | .nil => []
  | .cons h t => h :: t.toList

/-- Python `any(p(item) for item in arr)`. -/
def JArr.any (p : JValue → Bool) : JArr → Bool
  | .nil => false
  | .cons h t => p h || t.any p

/-- Python `all(p(item) for item in arr)`. -/
def JArr.all (p : JValue → Bool) : JArr → Bool
  | .nil => true
  | .cons h t => p h && t.all p

/-- Python `k in d` for a dict. -/
def JObj.hasKey : JObj → String → Bool
  | .nil, _ => false
  | .cons k _ t, key => k == key || t.hasKey key

/-- Python `d.get(k)` (`d[k]` when the key is present); first binding wins,
matching Python dicts, which cannot hold duplicate keys. -/
def JObj.lookup : JObj → String → Option JValue
  | .nil, _ => none
  | .cons k v t, key => if k == key then some v else t.lookup key

/-- Python `list(d.keys())` in insertion order. -/
def JObj.keyList : JObj → List String
  | .nil => []
  | .cons k _ t => k :: t.keyList

/-- Python `any(p(k, v) for k, v in d.items())`. -/
def JObj.anyPair (p : String → JValue → Bool) : JObj → Bool
  | .nil => false
  | .cons k v t => p k v || t.anyPair p

/-! ### Python sets of strings and Python string ordering

Python compares strings lexicographically by code point.  The built-in
`String` order of Lean does not reduce in the kernel, so the order is spelled
out over the character data. -/

/-- Python `s.add(x)` on a set modelled as a duplicate-free list (insertion
order is retained; all consumers of the model sort before use, as the source
does with `sorted(...)`). -/
def setAdd (l : List String) (x : String) : List String :=
  if x ∈ l then l else l ++ [x]

/-- Python `s.update(other)`: add every element of `l₂` to `l₁`. -/
def setUnion (l₁ l₂ : List String) : List String := l₂.foldl setAdd l₁

/-- Code-point lexicographic `a <= b` on character lists. -/
def lexLe : List Char → List Char → Bool
  | [], _ => true
  | _ :: _, [] => false
  | a :: as, b :: bs =>
    if a.toNat < b.toNat then true
    else if b.toNat < a.toNat then false
    else lexLe as bs

/-- Python string `a <= b` (code-point lexicographic). -/
def pyLe (a b : String) : Bool := lexLe a.data b.data

theorem lexLe_cons_iff {a b : Char} {as bs : List Char} :
    lexLe (a :: as) (b :: bs) = true ↔
      a.toNat < b.toNat ∨ (a.toNat = b.toNat ∧ lexLe as bs = true) := by
  simp only [lexLe]
  split_ifs with h₁ h₂
  · simp [h₁]
  · simp; omega
  · have : a.toNat = b.toNat := by omega
    simp [this]

theorem lexLe_total (a b : List Char) : lexLe a b = true ∨ lexLe b a = true := by
  induction a generalizing b with
  | nil => exact Or.inl rfl
  | cons x xs ih =>
    cases b with
    | nil => exact Or.inr rfl
    | cons y ys =>
      rcases Nat.lt_trichotomy x.toNat y.toNat with h | h | h
      · exact Or.inl (lexLe_cons_iff.mpr (Or.inl h))
      · rcases ih ys with h' | h'
        · exact Or.inl (lexLe_cons_iff.mpr (Or.inr ⟨h, h'⟩))
        · exact Or.inr (lexLe_cons_iff.mpr (Or.inr ⟨h.symm, h'⟩))
      · exact Or.inr (lexLe_cons_iff.mpr (Or.inl h))

theorem lexLe_antisymm {a b : List Char} (hab : lexLe a b = true)
    (hba : lexLe b a = true) : a = b := by
  induction a generalizing b with
  | nil =>
    cases b with
    | nil => rfl
    | cons y ys => simp [lexLe] at hba
  | cons x xs ih =>
    cases b with
    | nil => simp [lexLe] at hab
    | cons y ys =>
      rcases lexLe_cons_iff.mp hab with h₁ | ⟨h₁, h₁r⟩ <;>
        rcases lexLe_cons_iff.mp hba with h₂ | ⟨h₂, h₂r⟩
      · omega
      · omega
      · omega
      · have hx : x = y := Char.ext (UInt32.toNat.inj h₁)
        exact hx ▸ congrArg (x :: ·) (ih h₁r h₂r)

theorem lexLe_trans {a b c : List Char} (hab : lexLe a b = true)
    (hbc : lexLe b c = true) : lexLe a c = true := by
  induction a generalizing b c with
  | nil => rfl
  | cons x xs ih =>
    cases b with
    | nil => simp [lexLe] at hab
    | cons y ys =>
      cases c with
      | nil => simp [lexLe] at hbc
      | cons z zs =>
        rcases lexLe_cons_iff.mp hab with h₁ | ⟨h₁, h₁r⟩ <;>
          rcases lexLe_cons_iff.mp hbc with h₂ | ⟨h₂, h₂r⟩
        · exact lexLe_cons_iff.mpr (Or.inl (by omega))
        · exact lexLe_cons_iff.mpr (Or.inl (by omega))
        · exact lexLe_cons_iff.mpr (Or.inl (by omega))
        · exact lexLe_cons_iff.mpr (Or.inr ⟨by omega, ih h₁r h₂r⟩)

theorem pyLe_total (a b : String) : pyLe a b = true ∨ pyLe b a = true :=
  lexLe_total a.data b.data

theorem pyLe_antisymm {a b : String} (hab : pyLe a b = true)
    (hba : pyLe b a = true) : a = b := by
  cases a; cases b
  exact congrArg String.mk (lexLe_antisymm hab hba)

theorem pyLe_trans {a b c : String} (hab : pyLe a b = true)
    (hbc : pyLe b c = true) : pyLe a c = true :=
  lexLe_trans hab hbc

instance : IsTotal String (fun a b => pyLe a b = true) := ⟨pyLe_total⟩

instance : IsTrans String (fun a b => pyLe a b = true) := ⟨fun _ _ _ => pyLe_trans⟩

instance : IsAntisymm String (fun a b => pyLe a b = true) := ⟨fun _ _ => pyLe_antisymm⟩

/-- Python `sorted(...)` over a set of field names. -/
def sortedKeys (l : List String) : List String :=
  l.insertionSort (fun a b => pyLe a b = true)

theorem mem_setAdd {l : List String} {x y : String} :
    y ∈ setAdd l x ↔ y ∈ l ∨ y = x := by
  unfold setAdd
  split_ifs with h
  · constructor
    · exact Or.inl
    · rintro (hy | rfl) <;> [exact hy; exact h]
  · simp

theorem mem_setUnion {l₁ l₂ : List String} {y : String} :
    y ∈ setUnion l₁ l₂ ↔ y ∈ l₁ ∨ y ∈ l₂ := by
  induction l₂ generalizing l₁ with
  | nil => simp [setUnion]
  | cons x xs ih =>
    show y ∈ setUnion (setAdd l₁ x) xs ↔ _
    rw [ih, mem_setAdd]
    simp only [List.mem_cons]
    tauto

theorem nodup_setAdd {l : List String} (h : l.Nodup) (x : String) :
    (setAdd l x).Nodup := by
  unfold setAdd
  split_ifs with hx
  · exact h
  · simpa [List.nodup_append] using ⟨h, fun hy => hx hy⟩

theorem nodup_setUnion {l₁ l₂ : List String} (h : l₁.Nodup) :
    (setUnion l₁ l₂).Nodup := by
  induction l₂ generalizing l₁ with
  | nil => exact h
  | cons x xs ih => exact ih (nodup_setAdd h x)

theorem sortedKeys_eq_of_same_members {l₁ l₂ : List String}
    (h₁ : l₁.Nodup) (h₂ : l₂.Nodup) (hm : ∀ y, y ∈ l₁ ↔ y ∈ l₂) :
    sortedKeys l₁ = sortedKeys l₂ := by
  unfold sortedKeys
  refine List.eq_of_perm_of_sorted ?_ (l₁.sorted_insertionSort _)
    (l₂.sorted_insertionSort _)
  refine ((l₁.perm_insertionSort _).trans ?_).trans
    (l₂.perm_insertionSort _).symm
  rw [List.perm_ext_iff_of_nodup h₁ h₂]
  exact hm

/-- Set equality of two list-modelled Python sets (Python `set == set`). -/
def setEqB (a b : List String) : Bool :=
  a.all (fun x => b.contains x) && b.all (fun x => a.contains x)

namespace JsonAnalyzer

/-! ### `Components/json/analyzer.py`, class `JsonAnalyzer` -/

/-- The sibling-dimension merging inside `_analyze_list_depth` (lines
365-375): keep the maximum dimension at each common level, then append the
extra trailing levels of the longer vector. -/
def mergeDims : List Nat → List Nat → List Nat
  | [], b => b
  | a :: as, [] => a :: as
  | a :: as, b :: bs => max a b :: mergeDims as bs

mutual
/-- Python `JsonAnalyzer._analyze_list_depth(value, current_depth)` (lines 327-385):
returns `(max_depth, dimensions, is_nested)`. -/
def analyzeListDepth : JValue → Nat → Nat × List Nat × Bool
  | .list items, d =>
    if items.length = 0 then (d, [0], decide (d > 1))
    else if items.any JValue.isList then
      let r := analyzeSubs items d (d, [])
      (r.1, items.length :: r.2, true)
    else (d + 1, [items.length], decide (d > 0))
  | _, d => (d, [], decide (d > 1))

/-- The `for item in value: if isinstance(item, list): ...` loop of
`_analyze_list_depth` (lines 358-375), accumulating `(max_depth,
sub_dimensions)`. -/
def analyzeSubs : JArr → Nat → Nat × List Nat → Nat × List Nat
  | .nil, _, acc => acc
  | .cons (.list inner) rest, d, acc =>
    let s := analyzeListDepth (.list inner) (d + 1)
    analyzeSubs rest d (max acc.1 s.1, mergeDims acc.2 s.2.1)
  | .cons _ rest, d, acc => analyzeSubs rest d acc
end

/-- Python `isinstance(v, list) and len(v) > 0 and all(isinstance(x, dict) for x in
v)` — the nested-value test used by the multilevel classifier. -/
def isNonemptyListOfDicts : JValue → Bool
  | .list arr => !(arr.length == 0) && arr.all JValue.isDict
  | _ => false

/-- Python `JsonAnalyzer._is_key_value_list(value)` (lines 268-288). -/
def isKeyValueList : JValue → Bool
  | .list arr => !(arr.length == 0) && arr.all JValue.isDict
  | _ => false

/-- Python `JsonAnalyzer._is_multilevel_key_value(value)` (lines 140-168). -/
def isMultilevelKeyValue : JValue → Bool
  | .list items =>
    (!(items.length == 0) && items.all JValue.isDict) &&
      items.any (fun it =>
        match it with
        | .obj o => o.anyPair (fun _ v => v.isDict || isNonemptyListOfDicts v)
        | _ => false)
  | .obj o => o.anyPair (fun _ v => isNonemptyListOfDicts v)
  | _ => false

/-- Result dict of `_analyze_key_value_list` (lines 290-325).  The analyzer
never stores a `'nested_structure'` entry; the writer and formatter read it
with `kv_list_info.get('nested_structure', {})`, so it is modelled as a
member that defaults to the empty dict.  Each nested entry holds the keys of
its `'paths'` dict in insertion order (the per-path info values are never
read by the code). -/
structure KVListInfo where
  is_kv_list : Bool
  unique_keys : List String
  item_count : Nat
  has_consistent_keys : Bool
  nested_structure : List (String × List String) := []

/-- Collect `for item in value: for k in item.keys(): s.add(k)` over a list
whose items are dicts (the callers run only after an all-dicts check, so
non-dict items cannot occur; they are skipped). -/
def collectItemKeys : JArr → List String → List String
  | .nil, acc => acc
  | .cons (.obj o) t, acc => collectItemKeys t (setUnion acc o.keyList)
  | .cons _ t, acc => collectItemKeys t acc

/-- Python `JsonAnalyzer._analyze_key_value_list(value)` (lines 290-325); callers
guard with `_is_key_value_list`, non-list values yield the initial dict. -/
def analyzeKeyValueList : JValue → KVListInfo
  | .list arr =>
    let uk := collectItemKeys arr []
    let consistent := arr.all (fun it =>
      match it with
      | .obj o => setEqB o.keyList uk
      | _ => false)
    { is_kv_list := consistent, unique_keys := sortedKeys uk,
      item_count := arr.length, has_consistent_keys := consistent }
  | _ => { is_kv_list := false, unique_keys := [], item_count := 0,
           has_consistent_keys := false }

/-- One entry of the `level_info` dict built by
`_analyze_multilevel_key_value`: the level-1 entry carries
`'unique_keys'` (and, in the list-of-dicts branch, `'has_consistent_keys'`),
while the level-2 entry carries only `'parent_keys'` and `'key_mapping'` —
its `unique_keys` member is `none`, which is what makes the later
`['unique_keys']` access raise `KeyError`. -/
structure MLLevelInfo where
  unique_keys : Option (List String) := none
  has_consistent_keys : Option Bool := none
  parent_keys : Option (List String) := none
  key_mapping : Option (List (String × List String)) := none

/-- Result dict of `_analyze_multilevel_key_value` (lines 170-266). -/
structure MLStructure where
  is_multilevel : Bool
  max_level : Nat
  level1 : Option MLLevelInfo
  level2 : Option MLLevelInfo
  structure_type : Option String

/-- Update-or-append into the `level2_keys` dict: `if k not in level2_keys:
level2_keys[k] = set()` followed by adding every key of `ks`. -/
def l2Add : List (String × List String) → String → List String →
    List (String × List String)
  | [], k, ks => [(k, setUnion [] ks)]
  | (k', s) :: t, k, ks =>
    if k' == k then (k', setUnion s ks) :: t else (k', s) :: l2Add t k ks

/-- Python `for dict_item in v: for k2 in dict_item.keys()` — all keys of the dicts
of a list, in order (duplicates kept; the target set deduplicates). -/
def dictListKeys : JArr → List String
  | .nil => []
  | .cons (.obj o) t => o.keyList ++ dictListKeys t
  | .cons _ t => dictListKeys t

/-- The `for k, v in item.items()` scan that grows `level2_keys` from one
dict item (lines 206-219 for the list branch; the dict branch at lines
245-252 only handles the list-of-dicts case). -/
def l2ScanObj (withDictCase : Bool) : List (String × List String) → JObj →
    List (String × List String)
  | m, .nil => m
  | m, .cons k v t =>
    let m' :=
      match v with
      | .obj vo => if withDictCase then l2Add m k vo.keyList else m
      | .list arr =>
        if isNonemptyListOfDicts (.list arr) then l2Add m k (dictListKeys arr)
        else m
      | _ => m
    l2ScanObj withDictCase m' t

/-- The item loop growing `level2_keys` over a list of dicts. -/
def l2ScanItems : List (String × List String) → JArr →
    List (String × List String)
  | m, .nil => m
  | m, .cons (.obj o) t => l2ScanItems (l2ScanObj true m o) t
  | m, .cons _ t => l2ScanItems m t

/-- Python `JsonAnalyzer._analyze_multilevel_key_value(value)` (lines 170-266). -/
def analyzeMultilevelKeyValue : JValue → MLStructure
  | .list items =>
    if !(items.length == 0) && items.all JValue.isDict then
      let level1_keys := collectItemKeys items []
      let l1 : MLLevelInfo :=
        { unique_keys := some (sortedKeys level1_keys),
          has_consistent_keys := some (items.all (fun it =>
            match it with
            | .obj o => setEqB o.keyList level1_keys
            | _ => false)) }
      let l2keys := l2ScanItems [] items
      if !(l2keys.length == 0) then
        { is_multilevel := true, max_level := 2, level1 := some l1,
          level2 := some
            { parent_keys := some (sortedKeys (l2keys.map Prod.fst)),
              key_mapping := some (l2keys.map fun p => (p.1, sortedKeys p.2)) },
          structure_type := some "list_of_dicts" }
      else
        { is_multilevel := true, max_level := 1, level1 := some l1,
          level2 := none, structure_type := some "list_of_dicts" }
    else
      { is_multilevel := false, max_level := 0, level1 := none,
        level2 := none, structure_type := none }
  | .obj o =>
    let l1 : MLLevelInfo := { unique_keys := some (sortedKeys o.keyList) }
    let l2keys := l2ScanObj false [] o
    if !(l2keys.length == 0) then
      { is_multilevel := true, max_level := 2, level1 := some l1,
        level2 := some
          { parent_keys := some (sortedKeys (l2keys.map Prod.fst)),
            key_mapping := some (l2keys.map fun p => (p.1, sortedKeys p.2)) },
        structure_type := some "dict_of_lists" }
    else
      { is_multilevel := true, max_level := 1, level1 := some l1,
        level2 := none, structure_type := some "dict_of_lists" }
  | _ =>
    { is_multilevel := false, max_level := 0, level1 := none, level2 := none,
      structure_type := none }

/-- Python `level in multilevel_structure['level_info']` / the entry itself. -/
def levelEntry (ml : MLStructure) : Nat → Option MLLevelInfo
  | 1 => ml.level1
  | 2 => ml.level2
  | _ => none

/-- The dimensions loop of `analyze_json_structure` for a multilevel field
(lines 84-89): `for level in range(1, max_level + 1)`, reading
`level_info[level]['unique_keys']` — a `KeyError` when the entry exists but
has no `unique_keys` member (always the case for the level-2 entry). -/
def multilevelDims (ml : MLStructure) : Except String (List Nat) :=
  (List.range ml.max_level).mapM (fun i =>
    match levelEntry ml (i + 1) with
    | some info =>
      match info.unique_keys with
      | some ks => .ok ks.length
      | none => .error "KeyError: unique_keys"
    | none => .ok 1)

/-- The `structure_info` dict built by `analyze_json_structure` (lines
28-35).  The dict-valued members are modelled as maps from key to optional
entry. -/
structure StructureInfo where
  keys : List String
  nesting_depth : String → Option Nat
  nesting_structure : String → Option (List Nat)
  needs_subtitles : Bool
  kv_lists : String → Option KVListInfo
  multilevel_kv : String → Option MLStructure

/-- The initial `structure_info` dict. -/
def emptyStructureInfo : StructureInfo :=
  ⟨[], fun _ => none, fun _ => none, false, fun _ => none, fun _ => none⟩

/-- Python `d[k] = v` on a dict modelled as a map. -/
def updMap {α : Type} (m : String → Option α) (k : String) (v : α) :
    String → Option α :=
  fun q => if q = k then some v else m q

/-- The regular-list analysis at the bottom of the per-field loop of
`analyze_json_structure` (lines 115-135). -/
def standardFieldAnalysis (info : StructureInfo) (key : String)
    (value : JValue) : StructureInfo :=
  let r := analyzeListDepth value 0
  let depth := r.1
  let dims := r.2.1
  let is_nested := r.2.2
  if depth > 0 then
    let cur := (info.nesting_depth key).getD 0
    let info₁ :=
      if depth > cur then
        { info with nesting_depth := updMap info.nesting_depth key depth,
                    nesting_structure := updMap info.nesting_structure key dims }
      else info
    -- the source reads `dimensions[0]`; `depth > 0` guarantees `dims ≠ []`
    if is_nested || decide (dims.headD 0 > 1) then
      { info₁ with needs_subtitles := true }
    else info₁
  else
    if (info.nesting_depth key).isNone then
      { info with nesting_depth := updMap info.nesting_depth key 0,
                  nesting_structure := updMap info.nesting_structure key [] }
    else info

/-- The per-field body of `analyze_json_structure` (lines 64-135). -/
def processField (info : StructureInfo) (key : String) (value : JValue) :
    Except String StructureInfo :=
  let info := { info with keys := setAdd info.keys key }
  if isMultilevelKeyValue value then
    let ml := analyzeMultilevelKeyValue value
    if ml.is_multilevel then
      match multilevelDims ml with
      | .ok dims =>
        .ok { info with
                multilevel_kv := updMap info.multilevel_kv key ml,
                needs_subtitles := true,
                nesting_depth := updMap info.nesting_depth key ml.max_level,
                nesting_structure := updMap info.nesting_structure key dims }
      | .error e => .error e
    else .ok (standardFieldAnalysis info key value)
  else if isKeyValueList value then
    let kv := analyzeKeyValueList value
    if kv.is_kv_list then
      .ok { info with
              kv_lists := updMap info.kv_lists key kv,
              needs_subtitles := true,
              nesting_depth := updMap info.nesting_depth key 1,
              nesting_structure := updMap info.nesting_structure key
                [kv.unique_keys.length] }
    else .ok (standardFieldAnalysis info key value)
  else .ok (standardFieldAnalysis info key value)

/-- The `for key, value in fields.items()` loop. -/
def processFields (info : StructureInfo) : JObj → Except String StructureInfo
  | .nil => .ok info
  | .cons k v t => do processFields (← processField info k v) t

/-- The per-report body of `analyze_json_structure` (lines 46-61): a report
with a `'fields'` key uses that sub-dict (a non-dict `'fields'` value makes
the later `fields.items()` raise), otherwise the whole report object is the
fields dict; non-dict reports are skipped. -/
def analyzeReport (info : StructureInfo) (report : JValue) :
    Except String StructureInfo :=
  match report with
  | .obj kvs =>
    match kvs.lookup "fields" with
    | some (.obj fkvs) => processFields info fkvs
    | some _ => .error "AttributeError: fields is not a dict"
    | none => processFields info kvs
  | _ => .ok info

/-- Python `JsonAnalyzer.analyze_json_structure(json_data)` (lines 7-138) on an
already-listed `data_list` (every caller in the generator passes the
one-report list `[report]`). -/
def analyzeJsonStructure (dataList : List JValue) :
    Except String StructureInfo :=
  dataList.foldlM analyzeReport emptyStructureInfo

end JsonAnalyzer

/-- Lookup in a Python dict modelled as an association list. -/
def lookupAssoc {α : Type} : List (String × α) → String → Option α
  | [], _ => none
  | (k, v) :: t, key => if k == key then some v else lookupAssoc t key

namespace ExcelGenerator

/-! ### `Components/excel/generator.py`, class `ExcelGenerator` -/

open JsonAnalyzer

/-- The first-pass schema accumulation of `create_excel_file` (lines 72-89):
merge one report's `this_structure` into the sheet's accumulated structure.
Keys are unioned; a field's depth and dimension vector are replaced by the
incoming report's only when the incoming depth is strictly greater (or the
field is new); `needs_subtitles` is or-ed.  The `kv_lists` and
`multilevel_kv` members are not merged at all — the accumulated (first)
report's entries are kept. -/
def mergeStructureInfo (acc inc : StructureInfo) : StructureInfo :=
  { keys := setUnion acc.keys inc.keys
    nesting_depth := fun k =>
      match inc.nesting_depth k with
      | none => acc.nesting_depth k
      | some dInc =>
        match acc.nesting_depth k with
        | none => some dInc
        | some dAcc => if dInc > dAcc then some dInc else some dAcc
    nesting_structure := fun k =>
      match inc.nesting_depth k with
      | none => acc.nesting_structure k
      | some dInc =>
        match acc.nesting_depth k with
        | none => some ((inc.nesting_structure k).getD [])
        | some dAcc =>
          if dInc > dAcc then some ((inc.nesting_structure k).getD [])
          else acc.nesting_structure k
    needs_subtitles := acc.needs_subtitles || inc.needs_subtitles
    kv_lists := acc.kv_lists
    multilevel_kv := acc.multilevel_kv }

end ExcelGenerator

namespace ExcelFormatter

/-! ### `Components/excel/formatter.py`, class `ExcelFormatter` -/

open JsonAnalyzer

/-- Python `ExcelFormatter.sanitize_sheet_name` (lines 35-52): strip the characters
Excel rejects, truncate to 31. -/
def sanitizeSheetName (sheetName : String) : String :=
  String.mk ((sheetName.data.filter
    (fun c => !("\\/:*?[]".data.contains c))).take 31)

/-- Python `ExcelFormatter._calculate_total_columns(dimensions)` (lines 192-210). -/
def calculateTotalColumns (dims : List Nat) : Nat :=
  if dims = [] then 1
  else dims.foldl (fun total dim => total * max 1 dim) 1

/-- Column count advanced by the effective
`_setup_key_value_list_headers_with_nesting` (lines 417-508): per key, the
number of nested paths when the key is in `nested_structure`, else one. -/
def kvHeaderColumnsNested (kv : KVListInfo) : Nat :=
  kv.unique_keys.foldl (fun acc k =>
    acc + (match lookupAssoc kv.nested_structure k with
           | some paths => paths.length
           | none => 1)) 0

/-- Column count advanced by the effective `_setup_key_value_list_headers`
(lines 511-582): the nested variant when a non-empty `nested_structure` is
present, else one column per unique key. -/
def kvHeaderColumns (kv : KVListInfo) : Nat :=
  if kv.nested_structure ≠ [] then kvHeaderColumnsNested kv
  else kv.unique_keys.length

/-- Columns reserved for one field by the `setup_headers` walk (lines
74-132): key-value fields delegate to the key-value header writer, all other
fields reserve `_calculate_total_columns` of their dimension vector. -/
def fieldWidth (info : StructureInfo) (key : String) : Nat :=
  match info.kv_lists key with
  | some kv => kvHeaderColumns kv
  | none => calculateTotalColumns ((info.nesting_structure key).getD [])

/-- The per-field column cursor of `setup_headers`: fields in
`sorted(structure_info['keys'])` order, starting at column 2, each advancing
the cursor by its width. -/
def planFields (info : StructureInfo) : Nat → List String → List (String × Nat)
  | _, [] => []
  | cur, k :: rest => (k, cur) :: planFields info (cur + fieldWidth info k) rest

/-- The (field, start column) assignment produced by the header pass. -/
def headerPlan (info : StructureInfo) : List (String × Nat) :=
  planFields info 2 (sortedKeys info.keys)

end ExcelFormatter

namespace ExcelDataWriter

/-! ### `Components/excel/data_writer.py`, class `ExcelDataWriter`

A worksheet row is modelled as a map from column number to the optionally
written cell value.  Where Python later class members shadow earlier ones
(`_add_key_value_list_data_with_nesting`, `_flatten_object`,
`_setup_key_value_list_headers` all appear twice), the later definition — the
one Python keeps — is the one embedded. -/

open JsonAnalyzer

/-- A worksheet row: column number to cell content (`none` = never written). -/
def Row : Type := Nat → Option JValue

/-- A fresh, never-written row. -/
def emptyRow : Row := fun _ => none

/-- Python `worksheet.cell(row=..., column=c, value=v)` within one row. -/
def writeCell (r : Row) (c : Nat) (v : JValue) : Row :=
  fun q => if q = c then some v else r q

/-- Python `for col in range(start, start + n): cell(col, "")`. -/
def initCells : Row → Nat → Nat → Row
  | r, _, 0 => r
  | r, s, n + 1 => initCells (writeCell r s (.str "")) (s + 1) n

/-- Python `if apply_value_filters and isinstance(x, str): x = TextFilter.remove_units(x)`.
The unit-stripping regexes of `TextFilter.remove_units` are a collaborator
outside the layout core; the filter is threaded as a function parameter. -/
def applyFilter (f : String → String) (af : Bool) : JValue → JValue
  | .str s => if af then .str (f s) else .str s
  | v => v

/-- Python `ExcelDataWriter._calculate_total_columns(dimensions)` (lines 171-189);
textually the same algorithm as the formatter's copy. -/
def calculateTotalColumns (dims : List Nat) : Nat :=
  if dims = [] then 1
  else dims.foldl (fun total dim => total * max 1 dim) 1

mutual
/-- Python `ExcelDataWriter._flatten_nested_list(value, result, dimensions,
current_dim)` (lines 191-232), with the already-consumed dimension prefix
dropped instead of indexed.  Non-lists flatten to themselves; a list met
after the dimensions are exhausted contributes its first item (or `""`). -/
def flattenNestedList : JValue → List Nat → List JValue
  | .list vs, [] =>
    match vs with
    | .nil => [.str ""]
    | .cons x _ => [x]
  | .list vs, d :: rest => flattenLoop vs d rest
  | v, _ => [v]

/-- The `for i in range(dim_size)` loop of `_flatten_nested_list`: present
items recurse one level deeper; each missing index appends
`_calculate_total_columns` of the remaining dimensions many `""` (the source
writes the literal `1` at the innermost level, which is the same number). -/
def flattenLoop : JArr → Nat → List Nat → List JValue
  | _, 0, _ => []
  | .nil, k + 1, rest =>
    List.replicate ((k + 1) * calculateTotalColumns rest) (.str "")
  | .cons x xs, k + 1, rest => flattenNestedList x rest ++ flattenLoop xs k rest
end

/-- Python `for i, item in enumerate(flattened_values): if i < total_columns:
cell(start+i, filtered item)` (lines 162-167). -/
def writeFlat (f : String → String) (af : Bool) (row : Row)
    (start : Nat) : Nat → Nat → List JValue → Row
  | _, _, [] => row
  | i, total, item :: rest =>
    if i < total then
      writeFlat f af (writeCell row (start + i) (applyFilter f af item))
        start (i + 1) total rest
    else writeFlat f af row start (i + 1) total rest

/-- Python `ExcelDataWriter._add_nested_data` (lines 128-169): returns the updated
row and the number of columns used. -/
def addNestedData (f : String → String) (af : Bool) (row : Row)
    (start : Nat) (value : JValue) (dims : List Nat) : Row × Nat :=
  if dims = [] then (writeCell row start (applyFilter f af value), 1)
  else
    let total := calculateTotalColumns dims
    let row := initCells row start total
    let flat := flattenNestedList value dims
    (writeFlat f af row start 0 total flat, total)

/-- Python dict assignment `result[path] = v` on an association list: update
in place when present, else append. -/
def insertAssoc : List (String × JValue) → String → JValue →
    List (String × JValue)
  | [], k, v => [(k, v)]
  | (k', v') :: t, k, v =>
    if k' == k then (k', v) :: t else (k', v') :: insertAssoc t k v

mutual
/-- Python `ExcelDataWriter._flatten_object(obj, prefix, result)` (effective later
definition, lines 391-420). -/
def flattenObject : JValue → String → List (String × JValue) →
    List (String × JValue)
  | .obj kvs, pre, result => flattenObjPairs kvs pre result
  | v, pre, result => insertAssoc result pre v

/-- The `for key, value in obj.items()` loop of `_flatten_object`. -/
def flattenObjPairs : JObj → String → List (String × JValue) →
    List (String × JValue)
  | .nil, _, result => result
  | .cons k (.obj vo) t, pre, result =>
    let path := if pre == "" then k else pre ++ "." ++ k
    flattenObjPairs t pre (flattenObject (.obj vo) path result)
  | .cons k v t, pre, result =>
    let path := if pre == "" then k else pre ++ "." ++ k
    flattenObjPairs t pre (insertAssoc result path v)
end

/-- Python `path.split('.')[-1]`. -/
def lastComponentAux : List Char → List Char → List Char
  | [], cur => cur
  | c :: rest, cur =>
    if c == '.' then lastComponentAux rest []
    else lastComponentAux rest (cur ++ [c])

/-- The property name of a dotted path: its last `.`-separated component. -/
def lastPathComponent (s : String) : String :=
  String.mk (lastComponentAux s.data [])

/-- Total column count of a key-value list field, computed inline at lines
445-452 of `_add_key_value_list_data_with_nesting` (and again by
`_count_total_columns_for_kv_list`): nested keys count their paths, plain
keys count one. -/
def kvTotalColumns (kv : KVListInfo) : Nat :=
  kv.unique_keys.foldl (fun acc k =>
    acc + (match lookupAssoc kv.nested_structure k with
           | some paths => paths.length
           | none => 1)) 0

/-- The `for path, path_info in nested_structure[key]['paths'].items()` loop
(lines 480-493): look the path's leaf property up in the flattened object,
defaulting to `""`, filter, write, advance one column. -/
def writePaths (f : String → String) (af : Bool) (row : Row) (cur : Nat)
    (flattened : List (String × JValue)) : List String → Row × Nat
  | [] => (row, cur)
  | path :: rest =>
    let prop := lastPathComponent path
    let pv :=
      match lookupAssoc flattened prop with
      | some v => v
      | none => .str ""
    writePaths f af (writeCell row cur (applyFilter f af pv)) (cur + 1)
      flattened rest

/-- The `for key in ordered_keys` loop of
`_add_key_value_list_data_with_nesting` (lines 469-510): keys present in the
first item write their (possibly nested-flattened) values; absent keys only
skip their reserved columns. -/
def kvWriteKeys (f : String → String) (af : Bool) (row : Row) (cur : Nat)
    (first : JObj) (nested : List (String × List String)) :
    List String → Row × Nat
  | [] => (row, cur)
  | key :: rest =>
    match first.lookup key with
    | some item_value =>
      match lookupAssoc nested key, item_value with
      | some paths, .obj io =>
        let flattened := flattenObject (.obj io) "" []
        let r := writePaths f af row cur flattened paths
        kvWriteKeys f af r.1 r.2 first nested rest
      | _, _ =>
        kvWriteKeys f af (writeCell row cur (applyFilter f af item_value))
          (cur + 1) first nested rest
    | none =>
      match lookupAssoc nested key with
      | some paths => kvWriteKeys f af row (cur + paths.length) first nested rest
      | none => kvWriteKeys f af row (cur + 1) first nested rest

/-- Python `ExcelDataWriter._add_key_value_list_data_with_nesting` (effective later
definition, lines 422-512): initialize the whole reserved range to `""`,
then write the first item's values; returns the reserved column count. -/
def addKeyValueListDataWithNesting (f : String → String) (af : Bool)
    (row : Row) (start : Nat) (value : JValue) (kv : KVListInfo) : Row × Nat :=
  let total := kvTotalColumns kv
  let row := initCells row start total
  match value with
  | .list (.cons first _) =>
    match first with
    | .obj fobj =>
      let r := kvWriteKeys f af row start fobj kv.nested_structure
        kv.unique_keys
      (r.1, total)
    | _ => (row, total)
  | _ => (row, total)

/-- The per-field loop of `add_data_row` (lines 35-78), threading the row and
the column cursor through the fields in sorted key order. -/
def addRowFields (f : String → String) (af : Bool) (fields : JObj)
    (info : StructureInfo) : Row → Nat → List String → Row × Nat
  | row, cur, [] => (row, cur)
  | row, cur, key :: rest =>
    let value := (fields.lookup key).getD (.str "")
    let nesting := (info.nesting_structure key).getD []
    match info.kv_lists key with
    | some kv =>
      let r := addKeyValueListDataWithNesting f af row cur value kv
      addRowFields f af fields info r.1 (cur + r.2) rest
    | none =>
      if nesting ≠ [] then
        let r := addNestedData f af row cur value nesting
        addRowFields f af fields info r.1 (cur + r.2) rest
      else
        let value_to_set :=
          match value with
          | .list (.cons x _) => x
          | v => v
        addRowFields f af fields info
          (writeCell row cur (applyFilter f af value_to_set)) (cur + 1) rest

/-- Python `ExcelDataWriter.add_data_row` (lines 10-78).  The display name of the
source file (`FileUtils.process_filename`, a collaborator outside the layout
core) is threaded as the function `procName`.  Returns the written row and
the final column cursor. -/
def addDataRow (procName f : String → String) (af : Bool) (row : Row)
    (fileName : String) (fields : JObj) (info : StructureInfo) : Row × Nat :=
  let row := writeCell row 1 (.str (procName fileName))
  addRowFields f af fields info row 2 (sortedKeys info.keys)

/-- Columns advanced for one field by the `add_data_row` loop: the key-value
writer's count for key-value fields, `_calculate_total_columns` for fields
with a non-empty dimension vector, one column otherwise. -/
def fieldWidth (info : StructureInfo) (key : String) : Nat :=
  match info.kv_lists key with
  | some kv => kvTotalColumns kv
  | none =>
    let nesting := (info.nesting_structure key).getD []
    if nesting ≠ [] then calculateTotalColumns nesting else 1

/-- The per-field column cursor of the data pass, in sorted key order from
column 2. -/
def planFields (info : StructureInfo) : Nat → List String → List (String × Nat)
  | _, [] => []
  | cur, k :: rest => (k, cur) :: planFields info (cur + fieldWidth info k) rest

/-- The (field, start column) assignment used by the data pass. -/
def rowPlan (info : StructureInfo) : List (String × Nat) :=
  planFields info 2 (sortedKeys info.keys)

end ExcelDataWriter

namespace ScalarTyping

/-! ### Per-scalar-cell typing of the row renderer

The date/number cell-typing step of the final row renderer (spec section 4.4,
steps 3-5) is not among the sources under `src/`; the definitions of this
namespace are modelled from the specification. -/

/-- Modelled from the spec: the typed cell values produced by step 3-5 of the
per-scalar-cell pipeline — a date cell with a fixed display format, a numeric
cell of the narrowest numeric type (an integer, or a floating-point value
modelled exactly as the decimal it was parsed from: `floatCell m d` denotes
`m / d` with `d` the power of ten matching the written fraction digits), or
plain text. -/
inductive Cell where
  | dateCell (y m d : Nat)
  | intCell (n : Int)
  | floatCell (num : Int) (den : Nat)
  | textCell (s : String)
  deriving DecidableEq

/-- One token of a fixed date pattern: four-digit year, two-digit month,
two-digit day, three-letter month name, or a literal separator. -/
inductive DTok where
  | y4
  | m2
  | d2
  | mon3
  | lit (c : Char)

/-- Grab exactly `n` digit characters. -/
def grabDigits : Nat → List Char → List Char → Option (List Char × List Char)
  | 0, cs, acc => some (acc.reverse, cs)
  | _ + 1, [], _ => none
  | n + 1, c :: cs, acc =>
    if c.isDigit then grabDigits n cs (c :: acc) else none

def digitsToNat (ds : List Char) : Nat :=
  ds.foldl (fun n c => n * 10 + (c.toNat - 48)) 0

def monthNames : List (List Char) :=
  ["Jan", "Feb", "Mar", "Apr", "May", "Jun", "Jul", "Aug", "Sep", "Oct",
   "Nov", "Dec"].map String.data

def monthIndex (cs : List Char) : Option Nat :=
  match monthNames.findIdx? (fun m => m == cs) with
  | some i => some (i + 1)
  | none => none

/-- Run one date pattern over the characters, accumulating `(y, m, d)`; the
whole string must be consumed. -/
def runPattern : List DTok → List Char → Nat × Nat × Nat →
    Option (Nat × Nat × Nat)
  | [], [], acc => some acc
  | [], _ :: _, _ => none
  | .y4 :: toks, cs, acc =>
    match grabDigits 4 cs [] with
    | some (ds, rest) => runPattern toks rest (digitsToNat ds, acc.2.1, acc.2.2)
    | none => none
  | .m2 :: toks, cs, acc =>
    match grabDigits 2 cs [] with
    | some (ds, rest) => runPattern toks rest (acc.1, digitsToNat ds, acc.2.2)
    | none => none
  | .d2 :: toks, cs, acc =>
    match grabDigits 2 cs [] with
    | some (ds, rest) => runPattern toks rest (acc.1, acc.2.1, digitsToNat ds)
    | none => none
  | .mon3 :: toks, c1 :: c2 :: c3 :: rest, acc =>
    match monthIndex [c1, c2, c3] with
    | some m => runPattern toks rest (acc.1, m, acc.2.2)
    | none => none
  | .mon3 :: _, _, _ => none
  | .lit c :: toks, c' :: rest, acc =>
    if c' == c then runPattern toks rest acc else none
  | .lit _ :: _, [], _ => none

/-- Modelled from the spec: the ordered list of fixed date patterns of
pipeline step 3 — ISO, day-month-year, the slash variants, the named-month
variant, and the compact numeric form; the first matching pattern wins. -/
def datePatterns : List (List DTok) :=
  [[.y4, .lit '-', .m2, .lit '-', .d2],
   [.d2, .lit '-', .m2, .lit '-', .y4],
   [.y4, .lit '/', .m2, .lit '/', .d2],
   [.d2, .lit '/', .m2, .lit '/', .y4],
   [.d2, .lit ' ', .mon3, .lit ' ', .y4],
   [.y4, .m2, .d2]]

/-- Match one pattern and validate the field ranges the way `strptime`
does. -/
def matchDatePattern (p : List DTok) (s : String) : Option (Nat × Nat × Nat) :=
  match runPattern p s.data (0, 0, 0) with
  | some (y, m, d) =>
    if 1 ≤ m && m ≤ 12 && 1 ≤ d && d ≤ 31 then some (y, m, d) else none
  | none => none

/-- Try the patterns in order; first match wins. -/
def matchAnyDate (s : String) : Option (Nat × Nat × Nat) :=
  datePatterns.foldl (fun acc p =>
    match acc with
    | some r => some r
    | none => matchDatePattern p s) none

/-- Python `needle` occurs as a contiguous substring of `hay`. -/
def containsSub (hay needle : List Char) : Bool :=
  match hay with
  | [] => needle.isEmpty
  | _ :: t => needle.isPrefixOf hay || containsSub t needle

/-- The field name contains the substring `"date"`, case-insensitively. -/
def containsDateCI (fieldName : String) : Bool :=
  containsSub (fieldName.data.map Char.toLower) "date".data

def splitOnDot : List Char → List Char → List Char × Option (List Char)
  | [], acc => (acc.reverse, none)
  | c :: rest, acc =>
    if c == '.' then (acc.reverse, some rest) else splitOnDot rest (c :: acc)

/-- Modelled from the spec: step 4's numeric-string test and conversion — an
optional leading minus, digits with at most one decimal point, at least one
digit; the value as an exact pair (mantissa, power-of-ten denominator). -/
def parseNumeric (s : String) : Option (Int × Nat) :=
  let cs := s.data
  let (neg, cs) :=
    match cs with
    | '-' :: rest => (true, rest)
    | _ => (false, cs)
  let (ip, fp?) := splitOnDot cs []
  let valid :=
    match fp? with
    | none => !ip.isEmpty && ip.all Char.isDigit
    | some fp =>
      (!ip.isEmpty || !fp.isEmpty) && ip.all Char.isDigit && fp.all Char.isDigit
  if valid then
    let fp := match fp? with
      | none => []
      | some fp => fp
    let mantissa : Int := (digitsToNat ip * 10 ^ fp.length + digitsToNat fp : Nat)
    some (if neg then -mantissa else mantissa, 10 ^ fp.length)
  else none

/-- Step 4-5: numeric conversion to the narrowest type (integer when the
value has no fractional part), else text. -/
def numericOrText (s : String) : Cell :=
  match parseNumeric s with
  | some (m, d) => if m % (d : Int) = 0 then .intCell (m / d) else .floatCell m d
  | none => .textCell s

/-- Modelled from the spec: steps 3-5 of the per-scalar-cell pipeline of the
final row renderer (absent from `src/`) — date-named fields try the fixed
date patterns first and a match ends the pipeline; otherwise numeric strings
become typed numbers; otherwise the string stays text. -/
def processScalarCell (fieldName s : String) : Cell :=
  if containsDateCI fieldName then
    match matchAnyDate s with
    | some (y, m, d) => .dateCell y m d
    | none => numericOrText s
  else numericOrText s

end ScalarTyping

/-- Replace the value under a key of an association-list dict (the key is
present; used for re-assignment, which keeps the position). -/
def replaceAssoc {α : Type} : List (String × α) → String → α →
    List (String × α)
  | [], _, _ => []
  | (k, v) :: t, key, nv =>
    if k == key then (k, nv) :: t else (k, v) :: replaceAssoc t key nv

namespace ExcelGenerator

open JsonAnalyzer

/-- Python `reports_to_process = file_json_data if isinstance(file_json_data, list)
else [file_json_data]` (lines 54 and 113-134; both passes wrap non-lists). -/
def toReports : JValue → List JValue
  | .list arr => arr.toList
  | v => [v]

/-- Python `title = report.get('title', None) if isinstance(report, dict)`. -/
def titleOf : JValue → Option JValue
  | .obj kvs => kvs.lookup "title"
  | _ => none

/-- Title resolution in the first pass (lines 57-63): default
`f"Report_{file_name}"`.  A non-string title makes
`sanitize_sheet_name` (which iterates the characters) raise. -/
def resolveTitle1 (fileName : String) (report : JValue) : Except String String :=
  match titleOf report with
  | some (.str s) => .ok s
  | some _ => .error "TypeError: sheet title is not a string"
  | none => .ok ("Report_" ++ fileName)

/-- Title resolution in the second pass (lines 142-148): default
`f"Report_{file_name}_{report_index}"` — note the extra index, absent from
the first pass's default. -/
def resolveTitle2 (fileName : String) (reportIndex : Nat) (report : JValue) :
    Except String String :=
  match titleOf report with
  | some (.str s) => .ok s
  | some _ => .error "TypeError: sheet title is not a string"
  | none => .ok ("Report_" ++ fileName ++ "_" ++ toString reportIndex)

/-- The first pass of `create_excel_file` (lines 48-89): analyze every
report and accumulate per-sheet structure info into `all_structure_info`. -/
def pass1 (allData : List (String × JValue)) :
    Except String (List (String × StructureInfo)) :=
  allData.foldlM (fun acc p =>
    (toReports p.2).foldlM (fun acc report => do
      let title ← resolveTitle1 p.1 report
      let safe := ExcelFormatter.sanitizeSheetName title
      let this ← analyzeJsonStructure [report]
      match lookupAssoc acc safe with
      | none => .ok (acc ++ [(safe, this)])
      | some old => .ok (replaceAssoc acc safe (mergeStructureInfo old this)))
      acc) []

/-- Field extraction in the second pass (lines 191-200); a non-dict
`'fields'` value makes the writer's `fields.get` raise. -/
def fieldsOf : JValue → Except String JObj
  | .obj kvs =>
    match kvs.lookup "fields" with
    | some (.obj f) => .ok f
    | some _ => .error "AttributeError: fields is not a dict"
    | none => .ok kvs
  | _ => .ok .nil

/-- Python `max_nesting_level` over the sheet's keys (lines 176-179). -/
def maxNesting (info : StructureInfo) : Nat :=
  info.keys.foldl (fun m k => max m ((info.nesting_depth k).getD 0)) 0

/-- Per-sheet state of the `worksheets` dict (lines 160-189): the frozen
structure info, the next free row, and the rows written so far. -/
structure SheetState where
  structure_info : StructureInfo
  next_row : Nat
  rows : List (Nat × ExcelDataWriter.Row)

/-- The workbook: worksheets keyed by sanitized title, in creation order. -/
abbrev Workbook : Type := List (String × SheetState)

/-- The second pass for one report (lines 139-216): resolve the sheet
(creating it from the first pass's structure — `all_structure_info[safe_title]`
raises a `KeyError` when the title was never analyzed under that name), write
one data row, advance the sheet's row cursor by one. -/
def pass2Report (procName f : String → String) (af : Bool)
    (structures : List (String × StructureInfo)) (wb : Workbook)
    (fileName : String) (reportIndex : Nat) (report : JValue) :
    Except String Workbook := do
  let title ← resolveTitle2 fileName reportIndex report
  let safe := ExcelFormatter.sanitizeSheetName title
  let fields ← fieldsOf report
  match lookupAssoc wb safe with
  | some st =>
    let r := ExcelDataWriter.addDataRow procName f af ExcelDataWriter.emptyRow
      fileName fields st.structure_info
    .ok (replaceAssoc wb safe
      { st with next_row := st.next_row + 1,
                rows := st.rows ++ [(st.next_row, r.1)] })
  | none =>
    match lookupAssoc structures safe with
    | none => .error "KeyError: no analyzed structure for sheet title"
    | some sinfo =>
      let nextRow := 2 + maxNesting sinfo
      let r := ExcelDataWriter.addDataRow procName f af
        ExcelDataWriter.emptyRow fileName fields sinfo
      .ok (wb ++ [(safe,
        { structure_info := sinfo, next_row := nextRow + 1,
          rows := [(nextRow, r.1)] })])

/-- The second pass of `create_excel_file` (lines 101-216). -/
def pass2 (procName f : String → String) (af : Bool)
    (allData : List (String × JValue))
    (structures : List (String × StructureInfo)) : Except String Workbook :=
  allData.foldlM (fun wb p =>
    (toReports p.2).enum.foldlM (fun wb ir =>
      pass2Report procName f af structures wb p.1 ir.1 ir.2) wb) []

/-- The body of the `try` block of `create_excel_file` (lines 29-236): the
two passes over the input data.  The instrumentation (debug prints, progress
callbacks) and the final workbook file save are plumbing outside the layout
core and are not part of the model. -/
def pipelineBody (procName f : String → String) (af : Bool)
    (allData : List (String × JValue)) : Except String Workbook := do
  let structures ← pass1 allData
  pass2 procName f af allData structures

/-- Python `traceback.format_exc()` abstracted as a function of the exception. -/
def stackTrace (e : String) : String :=
  "Traceback (most recent call last): " ++ e

/-- Python `ExcelGenerator.create_excel_file` (lines 17-249): run the two-pass body;
on success report success to the callback and return `True`; on any exception
report, via the callback when one is provided, the human-readable
`f"Error: {e}"` plus the diagnostic trace, and return `False` (lines
232-249). -/
def createExcelFile (procName f : String → String) (af : Bool)
    (allData : List (String × JValue)) (outputPath : String)
    (hasCallback : Bool) : Bool × List (String × String) :=
  match pipelineBody procName f af allData with
  | .ok _ =>
    (true,
      if hasCallback then
        [("status", "Excel file created successfully at " ++ outputPath)]
      else [])
  | .error e =>
    (false,
      if hasCallback then
        [("status", "Error: " ++ e),
         ("debug", "EXCEPTION: " ++ ("Error: " ++ e)),
         ("debug", "STACK TRACE: " ++ stackTrace e)]
      else [])

end ExcelGenerator

/-! ### Supporting lemmas -/

theorem setAdd_eq_of_mem {l : List String} {x : String} (h : x ∈ l) :
    setAdd l x = l := by
  simp [setAdd, h]

theorem setUnion_eq_of_subset {l₁ l₂ : List String}
    (h : ∀ x ∈ l₂, x ∈ l₁) : setUnion l₁ l₂ = l₁ := by
  induction l₂ generalizing l₁ with
  | nil => rfl
  | cons x xs ih =>
    show setUnion (setAdd l₁ x) xs = l₁
    rw [setAdd_eq_of_mem (h x (by simp))]
    exact ih (fun y hy => h y (by simp [hy]))

theorem setUnion_absorb_right (a b : List String) :
    setUnion (setUnion a b) b = setUnion a b :=
  setUnion_eq_of_subset (fun _ hx => mem_setUnion.mpr (Or.inr hx))

theorem JsonAnalyzer.StructureInfo.extOf (a b : JsonAnalyzer.StructureInfo)
    (h1 : a.keys = b.keys) (h2 : a.nesting_depth = b.nesting_depth)
    (h3 : a.nesting_structure = b.nesting_structure)
    (h4 : a.needs_subtitles = b.needs_subtitles) (h5 : a.kv_lists = b.kv_lists)
    (h6 : a.multilevel_kv = b.multilevel_kv) : a = b := by
  cases a; cases b; simp_all

theorem calculateTotalColumns_eq (dims : List Nat) :
    ExcelFormatter.calculateTotalColumns dims =
      ExcelDataWriter.calculateTotalColumns dims := rfl

theorem foldl_mul_max (l : List Nat) (a : Nat) :
    l.foldl (fun t d => t * max 1 d) a = a * (l.map (fun d => max 1 d)).prod := by
  induction l generalizing a with
  | nil => simp
  | cons x xs ih =>
    simp only [List.foldl_cons, List.map_cons, List.prod_cons, ih, mul_assoc]

theorem calculateTotalColumns_eq_prod (dims : List Nat) :
    ExcelDataWriter.calculateTotalColumns dims =
      (dims.map (fun d => max 1 d)).prod := by
  unfold ExcelDataWriter.calculateTotalColumns
  split_ifs with h
  · simp [h]
  · rw [foldl_mul_max, one_mul]

theorem one_le_calculateTotalColumns (dims : List Nat) :
    1 ≤ ExcelDataWriter.calculateTotalColumns dims := by
  rw [calculateTotalColumns_eq_prod]
  induction dims with
  | nil => simp
  | cons x xs ih =>
    simp only [List.map_cons, List.prod_cons]
    have h1 : 1 ≤ max 1 x := Nat.le_max_left 1 x
    calc 1 = 1 * 1 := by omega
    _ ≤ max 1 x * (xs.map (fun d => max 1 d)).prod := Nat.mul_le_mul h1 ih

namespace ExcelDataWriter

theorem addNestedData_snd (f : String → String) (af : Bool) (row : Row)
    (start : Nat) (value : JValue) (dims : List Nat) :
    (addNestedData f af row start value dims).2 = calculateTotalColumns dims := by
  unfold addNestedData calculateTotalColumns
  split_ifs with h <;> simp [h]

theorem addKeyValueListDataWithNesting_snd (f : String → String) (af : Bool)
    (row : Row) (start : Nat) (value : JValue) (kv : JsonAnalyzer.KVListInfo) :
    (addKeyValueListDataWithNesting f af row start value kv).2 =
      kvTotalColumns kv := by
  unfold addKeyValueListDataWithNesting
  cases value with
  | list arr =>
    cases arr with
    | nil => rfl
    | cons first rest => cases first <;> rfl
  | str s => rfl
  | int n => rfl
  | obj o => rfl

end ExcelDataWriter

namespace ExcelDataWriter

theorem writeCell_ne (r : Row) (c : Nat) (v : JValue) {q : Nat} (h : q ≠ c) :
    writeCell r c v q = r q := by
  simp [writeCell, h]

theorem writeCell_self (r : Row) (c : Nat) (v : JValue) :
    writeCell r c v c = some v := by
  simp [writeCell]

theorem initCells_outside :
    ∀ (n : Nat) (r : Row) (s q : Nat), q < s ∨ s + n ≤ q →
      initCells r s n q = r q := by
  intro n
  induction n with
  | zero => intro r s q _; rfl
  | succ m ih =>
    intro r s q hq
    show initCells (writeCell r s (.str "")) (s + 1) m q = r q
    rw [ih _ _ _ (by omega), writeCell_ne _ _ _ (by omega)]

theorem initCells_inside :
    ∀ (n : Nat) (r : Row) (s q : Nat), s ≤ q → q < s + n →
      initCells r s n q = some (.str "") := by
  intro n
  induction n with
  | zero => intro r s q h1 h2; omega
  | succ m ih =>
    intro r s q h1 h2
    show initCells (writeCell r s (.str "")) (s + 1) m q = some (.str "")
    by_cases hq : q = s
    · rw [initCells_outside _ _ _ _ (by omega), hq, writeCell_self]
    · exact ih _ _ _ (by omega) (by omega)

theorem writeFlat_outside (f : String → String) (af : Bool) (start : Nat) :
    ∀ (items : List JValue) (i total : Nat) (row : Row) (q : Nat),
      q < start ∨ start + total ≤ q →
      writeFlat f af row start i total items q = row q := by
  intro items
  induction items with
  | nil => intro i total row q _; rfl
  | cons item rest ih =>
    intro i total row q hq
    unfold writeFlat
    split_ifs with hi
    · rw [ih _ _ _ _ hq, writeCell_ne _ _ _ (by omega)]
    · exact ih _ _ _ _ hq

theorem writeFlat_keeps_isSome (f : String → String) (af : Bool) (start : Nat) :
    ∀ (items : List JValue) (i total : Nat) (row : Row) (q : Nat),
      (row q).isSome = true →
      (writeFlat f af row start i total items q).isSome = true := by
  intro items
  induction items with
  | nil => intro i total row q h; exact h
  | cons item rest ih =>
    intro i total row q h
    unfold writeFlat
    split_ifs with hi
    · refine ih _ _ _ _ ?_
      by_cases hq : q = start + i
      · rw [hq, writeCell_self]; rfl
      · rw [writeCell_ne _ _ _ hq]; exact h
    · exact ih _ _ _ _ h

theorem flattenLoop_eq (rest : List Nat) :
    ∀ (l : List JValue) (d : Nat),
      flattenLoop (jarr l) d rest =
        (l.take d).flatMap (fun v => flattenNestedList v rest) ++
          List.replicate ((d - l.length) * calculateTotalColumns rest)
            (JValue.str "") := by
  intro l
  induction l with
  | nil =>
    intro d
    cases d with
    | zero => simp [jarr, flattenLoop]
    | succ k => simp [jarr, flattenLoop]
  | cons x xs ih =>
    intro d
    cases d with
    | zero => simp [jarr, flattenLoop]
    | succ k =>
      show flattenNestedList x rest ++ flattenLoop (jarr xs) k rest = _
      rw [ih k]
      simp [List.flatMap_cons, List.append_assoc, Nat.succ_sub_succ]

theorem flattenNestedList_list_eq (l : List JValue) (d : Nat) (rest : List Nat) :
    flattenNestedList (jlist l) (d :: rest) =
      (l.take d).flatMap (fun v => flattenNestedList v rest) ++
        List.replicate ((d - l.length) * calculateTotalColumns rest)
          (JValue.str "") := by
  show flattenLoop (jarr l) d rest = _
  exact flattenLoop_eq rest l d

end ExcelDataWriter

theorem kvHeaderColumnsNested_eq (kv : JsonAnalyzer.KVListInfo) :
    ExcelFormatter.kvHeaderColumnsNested kv = ExcelDataWriter.kvTotalColumns kv :=
  rfl

theorem lookupAssoc_nil {α : Type} (k : String) :
    lookupAssoc ([] : List (String × α)) k = none := rfl

theorem kvTotalColumns_of_no_nested (kv : JsonAnalyzer.KVListInfo)
    (h : kv.nested_structure = []) :
    ExcelDataWriter.kvTotalColumns kv = kv.unique_keys.length := by
  unfold ExcelDataWriter.kvTotalColumns
  rw [h]
  have haux : ∀ (keys : List String) (acc : Nat),
      keys.foldl (fun a (_ : String) => a + 1) acc = acc + keys.length := by
    intro keys
    induction keys with
    | nil => intro acc; simp
    | cons k rest ih =>
      intro acc
      simp only [List.foldl_cons, List.length_cons]
      rw [ih]
      omega
  show kv.unique_keys.foldl (fun a (_ : String) => a + 1) 0 =
    kv.unique_keys.length
  rw [haux]
  omega

theorem fieldWidth_eq (info : JsonAnalyzer.StructureInfo) (k : String) :
    ExcelFormatter.fieldWidth info k = ExcelDataWriter.fieldWidth info k := by
  unfold ExcelFormatter.fieldWidth ExcelDataWriter.fieldWidth
  cases hkv : info.kv_lists k with
  | some kv =>
    simp only []
    unfold ExcelFormatter.kvHeaderColumns
    split_ifs with h
    · exact kvHeaderColumnsNested_eq kv
    · rw [kvTotalColumns_of_no_nested kv (by simpa using h)]
  | none =>
    simp only []
    split_ifs with h
    · rw [calculateTotalColumns_eq]
    · rw [calculateTotalColumns_eq]
      have : (info.nesting_structure k).getD [] = [] := by simpa using h
      rw [this]
      rfl

theorem planFields_eq (info : JsonAnalyzer.StructureInfo) :
    ∀ (keys : List String) (cur : Nat),
      ExcelFormatter.planFields info cur keys =
        ExcelDataWriter.planFields info cur keys := by
  intro keys
  induction keys with
  | nil => intro cur; rfl
  | cons k rest ih =>
    intro cur
    show (k, cur) :: ExcelFormatter.planFields info
        (cur + ExcelFormatter.fieldWidth info k) rest = _
    rw [fieldWidth_eq, ih]
    rfl

theorem headerPlan_eq_rowPlan (info : JsonAnalyzer.StructureInfo) :
    ExcelFormatter.headerPlan info = ExcelDataWriter.rowPlan info :=
  planFields_eq info (sortedKeys info.keys) 2

theorem planFields_map_fst (info : JsonAnalyzer.StructureInfo) :
    ∀ (keys : List String) (cur : Nat),
      (ExcelDataWriter.planFields info cur keys).map Prod.fst = keys := by
  intro keys
  induction keys with
  | nil => intro cur; rfl
  | cons k rest ih =>
    intro cur
    show k :: (ExcelDataWriter.planFields info _ rest).map Prod.fst = _
    rw [ih]

theorem planFields_congr {info₁ info₂ : JsonAnalyzer.StructureInfo}
    (hw : ∀ k, ExcelDataWriter.fieldWidth info₁ k =
      ExcelDataWriter.fieldWidth info₂ k) :
    ∀ (keys : List String) (cur : Nat),
      ExcelDataWriter.planFields info₁ cur keys =
        ExcelDataWriter.planFields info₂ cur keys := by
  intro keys
  induction keys with
  | nil => intro cur; rfl
  | cons k rest ih =>
    intro cur
    show (k, cur) :: ExcelDataWriter.planFields info₁ _ rest = _
    rw [hw k, ih]
    rfl

theorem addRowFields_snd (f : String → String) (af : Bool) (fields : JObj)
    (info : JsonAnalyzer.StructureInfo) :
    ∀ (keys : List String) (row : ExcelDataWriter.Row) (cur : Nat),
      (ExcelDataWriter.addRowFields f af fields info row cur keys).2 =
        cur + (keys.map (ExcelDataWriter.fieldWidth info)).sum := by
  intro keys
  induction keys with
  | nil => intro row cur; simp [ExcelDataWriter.addRowFields]
  | cons key rest ih =>
    intro row cur
    unfold ExcelDataWriter.addRowFields
    cases hkv : info.kv_lists key with
    | some kv =>
      simp only [hkv]
      rw [ih, ExcelDataWriter.addKeyValueListDataWithNesting_snd]
      simp [List.map_cons, ExcelDataWriter.fieldWidth, hkv]
      omega
    | none =>
      simp only [hkv]
      split_ifs with hn
      · rw [ih, ExcelDataWriter.addNestedData_snd]
        simp only [List.map_cons, List.sum_cons, ExcelDataWriter.fieldWidth, hkv]
        rw [if_pos hn]
        omega
      · rw [ih]
        simp only [List.map_cons, List.sum_cons, ExcelDataWriter.fieldWidth, hkv]
        rw [if_neg hn]
        omega

theorem addDataRow_snd (procName f : String → String) (af : Bool)
    (row : ExcelDataWriter.Row) (fileName : String) (fields : JObj)
    (info : JsonAnalyzer.StructureInfo) :
    (ExcelDataWriter.addDataRow procName f af row fileName fields info).2 =
      2 + ((sortedKeys info.keys).map (ExcelDataWriter.fieldWidth info)).sum :=
  addRowFields_snd f af fields info (sortedKeys info.keys) _ 2

namespace ExcelGenerator

open JsonAnalyzer

theorem mergeStructureInfo_keys (a b : StructureInfo) :
    (mergeStructureInfo a b).keys = setUnion a.keys b.keys := rfl

theorem mergeStructureInfo_depth (a b : StructureInfo) (k : String) :
    (mergeStructureInfo a b).nesting_depth k =
      match b.nesting_depth k, a.nesting_depth k with
      | none, x => x
      | some dInc, none => some dInc
      | some dInc, some dAcc => some (max dAcc dInc) := by
  show (match b.nesting_depth k with
        | none => a.nesting_depth k
        | some dInc =>
          match a.nesting_depth k with
          | none => some dInc
          | some dAcc => if dInc > dAcc then some dInc else some dAcc) = _
  cases b.nesting_depth k <;> cases a.nesting_depth k <;> simp only []
  split_ifs with h <;> (congr 1; omega)

theorem mergeStructureInfo_structure (a b : StructureInfo) (k : String) :
    (mergeStructureInfo a b).nesting_structure k =
      match b.nesting_depth k, a.nesting_depth k with
      | none, _ => a.nesting_structure k
      | some _, none => some ((b.nesting_structure k).getD [])
      | some dInc, some dAcc =>
        if dAcc < dInc then some ((b.nesting_structure k).getD [])
        else a.nesting_structure k := by
  show (match b.nesting_depth k with
        | none => a.nesting_structure k
        | some dInc =>
          match a.nesting_depth k with
          | none => some ((b.nesting_structure k).getD [])
          | some dAcc =>
            if dInc > dAcc then some ((b.nesting_structure k).getD [])
            else a.nesting_structure k) = _
  cases b.nesting_depth k <;> cases a.nesting_depth k <;> rfl

theorem mergeStructureInfo_subtitles (a b : StructureInfo) :
    (mergeStructureInfo a b).needs_subtitles =
      (a.needs_subtitles || b.needs_subtitles) := rfl

theorem mergeStructureInfo_depth_comm (a b : StructureInfo) (k : String) :
    (mergeStructureInfo a b).nesting_depth k =
      (mergeStructureInfo b a).nesting_depth k := by
  rw [mergeStructureInfo_depth, mergeStructureInfo_depth]
  cases a.nesting_depth k <;> cases b.nesting_depth k <;> simp only []
  rw [Nat.max_comm]

theorem mergeStructureInfo_mem_keys_comm (a b : StructureInfo) (k : String) :
    k ∈ (mergeStructureInfo a b).keys ↔ k ∈ (mergeStructureInfo b a).keys := by
  rw [mergeStructureInfo_keys, mergeStructureInfo_keys, mem_setUnion,
    mem_setUnion]
  exact Or.comm

theorem mergeStructureInfo_absorb (acc inc : StructureInfo) :
    mergeStructureInfo (mergeStructureInfo acc inc) inc =
      mergeStructureInfo acc inc := by
  refine StructureInfo.extOf _ _ ?_ ?_ ?_ ?_ rfl rfl
  · exact setUnion_absorb_right acc.keys inc.keys
  · funext k
    have hL := mergeStructureInfo_depth (mergeStructureInfo acc inc) inc k
    have hD := mergeStructureInfo_depth acc inc k
    rw [hD] at hL
    rw [hL, hD]
    cases inc.nesting_depth k with
    | none => rfl
    | some dInc =>
      cases acc.nesting_depth k with
      | none => simp only []; congr 1; omega
      | some dAcc => simp only []; congr 1; omega
  · funext k
    have hL := mergeStructureInfo_structure (mergeStructureInfo acc inc) inc k
    have hD := mergeStructureInfo_depth acc inc k
    have hS := mergeStructureInfo_structure acc inc k
    rw [hD, hS] at hL
    rw [hL, hS]
    cases inc.nesting_depth k with
    | none => rfl
    | some dInc =>
      cases acc.nesting_depth k with
      | none =>
        simp only []
        rw [if_neg (show ¬ dInc < dInc by omega)]
      | some dAcc =>
        simp only []
        rw [if_neg (show ¬ max dAcc dInc < dInc by omega)]
  · have h1 := mergeStructureInfo_subtitles (mergeStructureInfo acc inc) inc
    have h2 := mergeStructureInfo_subtitles acc inc
    rw [h2] at h1
    rw [h1, h2, Bool.or_assoc, Bool.or_self]

end ExcelGenerator

/-! ### Concrete inputs used by the claim theorems -/

/-- The identity text filter, instantiating the out-of-core
`TextFilter.remove_units` collaborator parameter in concrete runs. -/
def identityFilter : String → String := fun s => s

/-- The structure a single report analyzes to (its analysis must succeed;
the error fallback returns the initial dict). -/
def analyzedInfo (r : JValue) : JsonAnalyzer.StructureInfo :=
  match JsonAnalyzer.analyzeJsonStructure [r] with
  | .ok s => s
  | .error _ => JsonAnalyzer.emptyStructureInfo

/-- The nested key-value field value of the spec's test:
`[{"a": 1, "b": {"x": 10, "y": 20}}]`. -/
def c1FieldValue : JValue :=
  jlist [jdict [("a", .int 1), ("b", jdict [("x", .int 10), ("y", .int 20)])]]

/-- A report carrying that field under key `"F"`. -/
def c1Report : JValue :=
  jdict [("title", .str "T"), ("fields", jdict [("F", c1FieldValue)])]

/-- The key-value schema the spec prescribes for that field:
`unique_keys=["a","b"]`, `nested_structure={"b": {"paths": {"b.x", "b.y"}}}`. -/
def c1KVInfo : JsonAnalyzer.KVListInfo :=
  { is_kv_list := true, unique_keys := ["a", "b"], item_count := 1,
    has_consistent_keys := true, nested_structure := [("b", ["b.x", "b.y"])] }

/-- Report with field `"a"` a flat list of two strings. -/
def reportA2 : JValue := jdict [("a", jlist [.str "x", .str "x"])]

/-- Report with field `"a"` a flat list of five strings. -/
def reportA5 : JValue :=
  jdict [("a", jlist [.str "x", .str "x", .str "x", .str "x", .str "x"])]

/-- Report with field `"m"` a flat list of three integers. -/
def reportB3 : JValue := jdict [("m", jlist [.int 1, .int 2, .int 3])]

/-- Report with field `"m"` a flat list of five integers. -/
def reportB5 : JValue :=
  jdict [("m", jlist [.int 1, .int 2, .int 3, .int 4, .int 5])]

/-- Report with a two-item list field `"a"` and a scalar field `"b"`. -/
def reportC2items : JValue :=
  jdict [("a", jlist [.str "x", .str "y"]), ("b", .str "s")]

/-- Report with a five-item list field `"a"` and a scalar field `"b"`. -/
def reportC5items : JValue :=
  jdict [("a", jlist [.str "x", .str "y", .str "z", .str "u", .str "v"]),
         ("b", .str "s")]

/-- The ragged nested-list value `[[1, 2, 3]]` of the spec's padding test. -/
def c6Value : JValue := jlist [jlist [.int 1, .int 2, .int 3]]

/-- A well-formed single report (titled, one scalar field). -/
def okReport : JValue :=
  jdict [("title", .str "T"), ("fields", jdict [("a", .str "1")])]

/-- An untitled report: the two passes derive different default sheet titles
for it (`Report_<file>` vs `Report_<file>_<index>`), so the second pass's
structure lookup raises. -/
def untitledReport : JValue := jdict [("a", .str "1")]

/-! ### Claim theorems -/

/-- C1: the claim says that for a field value that is a non-empty list of
dictionaries with a nested dictionary value — in particular
`[{"a": 1, "b": {"x": 10, "y": 20}}]` — structure analysis followed by row
rendering lays out one column per flattened dotted path and renders the 3
cells 1, 10, 20.  The code cannot do this: `analyze_json_structure`
classifies the value as multilevel and then reads
`level_info[2]['unique_keys']`, a key the level-2 entry never has, so the
analysis raises `KeyError` and `create_excel_file` aborts with `False`; no
row is rendered.  The row renderer itself, fed the very key-value schema the
claim describes, would produce exactly the cells 1, 10, 20 — the defect is
localized in the analysis step. -/
theorem C1_nested_kv_analysis_key_error :
    JsonAnalyzer.analyzeJsonStructure [c1Report] =
      .error "KeyError: unique_keys" ∧
    (ExcelGenerator.createExcelFile identityFilter identityFilter true
      [("test.json", c1Report)] "out.xlsx" true).1 = false ∧
    ((ExcelDataWriter.addKeyValueListDataWithNesting identityFilter true
        ExcelDataWriter.emptyRow 2 c1FieldValue c1KVInfo).2 = 3 ∧
      (ExcelDataWriter.addKeyValueListDataWithNesting identityFilter true
        ExcelDataWriter.emptyRow 2 c1FieldValue c1KVInfo).1 2 = some (.int 1) ∧
      (ExcelDataWriter.addKeyValueListDataWithNesting identityFilter true
        ExcelDataWriter.emptyRow 2 c1FieldValue c1KVInfo).1 3 = some (.int 10) ∧
      (ExcelDataWriter.addKeyValueListDataWithNesting identityFilter true
        ExcelDataWriter.emptyRow 2 c1FieldValue c1KVInfo).1 4 = some (.int 20)) :=
  ⟨rfl, rfl, rfl, rfl, rfl, rfl⟩

/-- C3: the claim says schema accumulation is commutative in the whole
structure, dimensions included.  It is not: with field `"a"` a 2-element
list in one report and a 5-element list in the other (equal depth 1), the
accumulated dimension vector is whichever report was merged first — `[2]`
one way and `[5]` the other. -/
theorem C3_dimension_merge_not_commutative :
    (JsonAnalyzer.analyzeJsonStructure [reportA2]).isOk = true ∧
    (JsonAnalyzer.analyzeJsonStructure [reportA5]).isOk = true ∧
    (ExcelGenerator.mergeStructureInfo (analyzedInfo reportA2)
      (analyzedInfo reportA5)).nesting_structure "a" = some [2] ∧
    (ExcelGenerator.mergeStructureInfo (analyzedInfo reportA5)
      (analyzedInfo reportA2)).nesting_structure "a" = some [5] ∧
    (ExcelGenerator.mergeStructureInfo (analyzedInfo reportA2)
        (analyzedInfo reportA5)).nesting_structure "a" ≠
      (ExcelGenerator.mergeStructureInfo (analyzedInfo reportA5)
        (analyzedInfo reportA2)).nesting_structure "a" := by
  have h1 : (ExcelGenerator.mergeStructureInfo (analyzedInfo reportA2)
      (analyzedInfo reportA5)).nesting_structure "a" = some [2] := rfl
  have h2 : (ExcelGenerator.mergeStructureInfo (analyzedInfo reportA5)
      (analyzedInfo reportA2)).nesting_structure "a" = some [5] := rfl
  refine ⟨rfl, rfl, h1, h2, ?_⟩
  rw [h1, h2]
  decide

/-- C3 (amended): for any two analyzed reports destined for the same sheet,
merging in either order yields the same key set, the same per-field nesting
depth, and the same `needs_subtitles` flag; the accumulated dimension
vectors, however, can depend on the merge order (see the counterexample). -/
theorem C3_merge_commutes_on_keys_depth_subtitles :
    ∀ (r₁ r₂ : JValue) (s₁ s₂ : JsonAnalyzer.StructureInfo),
      JsonAnalyzer.analyzeJsonStructure [r₁] = .ok s₁ →
      JsonAnalyzer.analyzeJsonStructure [r₂] = .ok s₂ →
      (∀ k, k ∈ (ExcelGenerator.mergeStructureInfo s₁ s₂).keys ↔
        k ∈ (ExcelGenerator.mergeStructureInfo s₂ s₁).keys) ∧
      (∀ k, (ExcelGenerator.mergeStructureInfo s₁ s₂).nesting_depth k =
        (ExcelGenerator.mergeStructureInfo s₂ s₁).nesting_depth k) ∧
      (ExcelGenerator.mergeStructureInfo s₁ s₂).needs_subtitles =
        (ExcelGenerator.mergeStructureInfo s₂ s₁).needs_subtitles := by
  intro r₁ r₂ s₁ s₂ h₁ h₂
  refine ⟨fun k => ExcelGenerator.mergeStructureInfo_mem_keys_comm s₁ s₂ k,
    fun k => ExcelGenerator.mergeStructureInfo_depth_comm s₁ s₂ k, ?_⟩
  rw [ExcelGenerator.mergeStructureInfo_subtitles,
    ExcelGenerator.mergeStructureInfo_subtitles, Bool.or_comm]

/-- C3 witness: the commutativity of keys, depth and the subtitle flag at the
two concrete analyzed reports. -/
theorem C3_merge_commutes_witness :
    (∀ k, k ∈ (ExcelGenerator.mergeStructureInfo (analyzedInfo reportA2)
        (analyzedInfo reportA5)).keys ↔
      k ∈ (ExcelGenerator.mergeStructureInfo (analyzedInfo reportA5)
        (analyzedInfo reportA2)).keys) ∧
    (∀ k, (ExcelGenerator.mergeStructureInfo (analyzedInfo reportA2)
        (analyzedInfo reportA5)).nesting_depth k =
      (ExcelGenerator.mergeStructureInfo (analyzedInfo reportA5)
        (analyzedInfo reportA2)).nesting_depth k) ∧
    (ExcelGenerator.mergeStructureInfo (analyzedInfo reportA2)
        (analyzedInfo reportA5)).needs_subtitles =
      (ExcelGenerator.mergeStructureInfo (analyzedInfo reportA5)
        (analyzedInfo reportA2)).needs_subtitles :=
  C3_merge_commutes_on_keys_depth_subtitles reportA2 reportA5
    (analyzedInfo reportA2) (analyzedInfo reportA5) rfl rfl

/-- C4: the claim says accumulated dimensions are the elementwise maximum of
the two reports' vectors, so `[2]` and `[5]` would accumulate to `[5]` in
either order.  The code takes no elementwise maximum: it keeps the
accumulated vector unless the incoming depth is strictly greater — here
(equal depth 1, vectors `[3]` and `[5]`) the first-merged vector wins. -/
theorem C4_not_elementwise_max :
    (JsonAnalyzer.analyzeJsonStructure [reportB3]).isOk = true ∧
    (JsonAnalyzer.analyzeJsonStructure [reportB5]).isOk = true ∧
    (ExcelGenerator.mergeStructureInfo (analyzedInfo reportB3)
      (analyzedInfo reportB5)).nesting_structure "m" = some [3] ∧
    (ExcelGenerator.mergeStructureInfo (analyzedInfo reportB3)
        (analyzedInfo reportB5)).nesting_structure "m" ≠ some [5] ∧
    (ExcelGenerator.mergeStructureInfo (analyzedInfo reportB5)
      (analyzedInfo reportB3)).nesting_structure "m" = some [5] := by
  have h1 : (ExcelGenerator.mergeStructureInfo (analyzedInfo reportB3)
      (analyzedInfo reportB5)).nesting_structure "m" = some [3] := rfl
  refine ⟨rfl, rfl, h1, ?_, rfl⟩
  rw [h1]
  decide

/-- C4 (amended): when two reports contribute a dimension vector for the same
field, the accumulated vector follows the generator's replacement rule — the
incoming report's vector replaces the accumulated one exactly when the
incoming depth is strictly greater, and otherwise the accumulated vector is
kept unchanged; no elementwise maximum is taken, so for equal-depth vectors
such as `[3]` and `[5]` the result is the first-merged vector. -/
theorem C4_dimension_merge_rule :
    (∀ (s₁ s₂ : JsonAnalyzer.StructureInfo) (k : String) (d₁ d₂ : Nat),
      s₁.nesting_depth k = some d₁ → s₂.nesting_depth k = some d₂ →
      (ExcelGenerator.mergeStructureInfo s₁ s₂).nesting_structure k =
        (if d₁ < d₂ then some ((s₂.nesting_structure k).getD [])
         else s₁.nesting_structure k)) ∧
    (ExcelGenerator.mergeStructureInfo (analyzedInfo reportB3)
      (analyzedInfo reportB5)).nesting_structure "m" = some [3] ∧
    (ExcelGenerator.mergeStructureInfo (analyzedInfo reportB5)
      (analyzedInfo reportB3)).nesting_structure "m" = some [5] := by
  refine ⟨?_, rfl, rfl⟩
  intro s₁ s₂ k d₁ d₂ h₁ h₂
  rw [ExcelGenerator.mergeStructureInfo_structure, h₁, h₂]

/-- C4 witness: the replacement rule applied at the two concrete analyzed
reports (equal depths, so the first-merged vector is kept). -/
theorem C4_dimension_merge_rule_witness :
    (analyzedInfo reportB3).nesting_depth "m" = some 1 ∧
    (analyzedInfo reportB5).nesting_depth "m" = some 1 ∧
    (ExcelGenerator.mergeStructureInfo (analyzedInfo reportB3)
      (analyzedInfo reportB5)).nesting_structure "m" =
      (if 1 < 1 then some (((analyzedInfo reportB5).nesting_structure "m").getD [])
       else (analyzedInfo reportB3).nesting_structure "m") :=
  ⟨rfl, rfl,
    C4_dimension_merge_rule.1 (analyzedInfo reportB3) (analyzedInfo reportB5)
      "m" 1 1 rfl rfl⟩

/-- C5: schema accumulation is idempotent — merging the same analyzed
report's structure into an accumulated structure a second time leaves the
result of the first merge exactly unchanged (keys, nesting depths, dimension
vectors, `needs_subtitles`, and the unmerged key-value members alike). -/
theorem C5_schema_merge_idempotent :
    ∀ (r : JValue) (acc inc : JsonAnalyzer.StructureInfo),
      JsonAnalyzer.analyzeJsonStructure [r] = .ok inc →
      ExcelGenerator.mergeStructureInfo
          (ExcelGenerator.mergeStructureInfo acc inc) inc =
        ExcelGenerator.mergeStructureInfo acc inc := by
  intro r acc inc _
  exact ExcelGenerator.mergeStructureInfo_absorb acc inc

/-- C5 witness: idempotence at a concrete accumulated structure and a
concrete analyzed report. -/
theorem C5_schema_merge_idempotent_witness :
    ExcelGenerator.mergeStructureInfo
        (ExcelGenerator.mergeStructureInfo (analyzedInfo reportA2)
          (analyzedInfo reportA5)) (analyzedInfo reportA5) =
      ExcelGenerator.mergeStructureInfo (analyzedInfo reportA2)
        (analyzedInfo reportA5) :=
  C5_schema_merge_idempotent reportA5 (analyzedInfo reportA2)
    (analyzedInfo reportA5) rfl

/-- C6: rendering a nested-list field against frozen schema dimensions
right-pads missing trailing items with empty strings at every level: for a
list of items under dimensions `d :: rest`, the present items (up to `d`)
flatten recursively and every missing trailing item contributes a full block
of empty strings, so the flattened field fills its whole reserved range.  In
particular, with frozen dimensions `[2, 3]` and actual value `[[1, 2, 3]]`
the renderer emits exactly the 6 cells 1, 2, 3, `""`, `""`, `""` in
row-major order. -/
theorem C6_ragged_padding :
    (∀ (l : List JValue) (d : Nat) (rest : List Nat),
      ExcelDataWriter.flattenNestedList (jlist l) (d :: rest) =
        (l.take d).flatMap (fun v => ExcelDataWriter.flattenNestedList v rest)
          ++ List.replicate
              ((d - l.length) * ExcelDataWriter.calculateTotalColumns rest)
              (JValue.str "")) ∧
    ExcelDataWriter.flattenNestedList c6Value [2, 3] =
      [.int 1, .int 2, .int 3, .str "", .str "", .str ""] ∧
    (ExcelDataWriter.addNestedData identityFilter true
      ExcelDataWriter.emptyRow 2 c6Value [2, 3]).2 = 6 ∧
    (ExcelDataWriter.addNestedData identityFilter true
      ExcelDataWriter.emptyRow 2 c6Value [2, 3]).1 2 = some (.int 1) ∧
    (ExcelDataWriter.addNestedData identityFilter true
      ExcelDataWriter.emptyRow 2 c6Value [2, 3]).1 3 = some (.int 2) ∧
    (ExcelDataWriter.addNestedData identityFilter true
      ExcelDataWriter.emptyRow 2 c6Value [2, 3]).1 4 = some (.int 3) ∧
    (ExcelDataWriter.addNestedData identityFilter true
      ExcelDataWriter.emptyRow 2 c6Value [2, 3]).1 5 = some (.str "") ∧
    (ExcelDataWriter.addNestedData identityFilter true
      ExcelDataWriter.emptyRow 2 c6Value [2, 3]).1 6 = some (.str "") ∧
    (ExcelDataWriter.addNestedData identityFilter true
      ExcelDataWriter.emptyRow 2 c6Value [2, 3]).1 7 = some (.str "") :=
  ⟨ExcelDataWriter.flattenNestedList_list_eq, rfl, rfl, rfl, rfl, rfl, rfl,
    rfl, rfl⟩

/-- C8: a nested-list field with dimension vector `d` reserves the product of
all its levels' sizes, each floored to 1 (so a recorded 0 still reserves one
column); the empty vector reserves 1; the planner's and the row renderer's
copies of the formula agree everywhere. -/
theorem C8_column_width_formula :
    (∀ dims : List Nat,
      ExcelFormatter.calculateTotalColumns dims =
        ExcelDataWriter.calculateTotalColumns dims ∧
      ExcelDataWriter.calculateTotalColumns dims =
        (dims.map (fun d => max 1 d)).prod ∧
      1 ≤ ExcelDataWriter.calculateTotalColumns dims) ∧
    ExcelDataWriter.calculateTotalColumns [] = 1 ∧
    ExcelDataWriter.calculateTotalColumns [0] = 1 ∧
    ExcelDataWriter.calculateTotalColumns [2, 0, 3] = 6 :=
  ⟨fun dims => ⟨calculateTotalColumns_eq dims,
    calculateTotalColumns_eq_prod dims, one_le_calculateTotalColumns dims⟩,
    rfl, rfl, rfl⟩

/-- C10: for every value and dimension vector, `_add_nested_data` writes only
within the reserved half-open range
`[start, start + calculateTotalColumns dims)`: it returns exactly that
reserved width, every column outside the range is untouched (over-long
flattened values are discarded, never spilling into the next field), and
every column inside the range ends up written (the range is pre-initialized
to empty strings before the flattened values are laid down). -/
theorem C10_nested_writer_frame :
    ∀ (f : String → String) (af : Bool) (row : ExcelDataWriter.Row)
      (start : Nat) (value : JValue) (dims : List Nat),
      (ExcelDataWriter.addNestedData f af row start value dims).2 =
        ExcelDataWriter.calculateTotalColumns dims ∧
      (∀ c, c < start ∨ start + ExcelDataWriter.calculateTotalColumns dims ≤ c →
        (ExcelDataWriter.addNestedData f af row start value dims).1 c = row c) ∧
      (∀ c, start ≤ c → c < start + ExcelDataWriter.calculateTotalColumns dims →
        ((ExcelDataWriter.addNestedData f af row start value dims).1 c).isSome
          = true) := by
  intro f af row start value dims
  refine ⟨ExcelDataWriter.addNestedData_snd f af row start value dims, ?_, ?_⟩
  · intro c hc
    unfold ExcelDataWriter.addNestedData
    split_ifs with h
    · subst h
      have hcalc : ExcelDataWriter.calculateTotalColumns [] = 1 := rfl
      rw [hcalc] at hc
      exact ExcelDataWriter.writeCell_ne _ _ _ (by omega)
    · simp only []
      rw [ExcelDataWriter.writeFlat_outside _ _ _ _ _ _ _ _ hc,
        ExcelDataWriter.initCells_outside _ _ _ _ hc]
  · intro c hc1 hc2
    unfold ExcelDataWriter.addNestedData
    split_ifs with h
    · subst h
      have hcalc : ExcelDataWriter.calculateTotalColumns [] = 1 := rfl
      rw [hcalc] at hc2
      have : c = start := by omega
      rw [this]
      show (ExcelDataWriter.writeCell row start
        (ExcelDataWriter.applyFilter f af value) start).isSome = true
      rw [ExcelDataWriter.writeCell_self]
      rfl
    · simp only []
      refine ExcelDataWriter.writeFlat_keeps_isSome _ _ _ _ _ _ _ _ ?_
      rw [ExcelDataWriter.initCells_inside _ _ _ _ hc1 hc2]
      rfl

/-- C10 witness: the frame property at a concrete over-long, ragged value
(five items against frozen dimensions `[2]`): two columns are reserved, the
column right of the range is untouched and both in-range columns are
written. -/
theorem C10_nested_writer_frame_witness :
    (ExcelDataWriter.addNestedData identityFilter true
      ExcelDataWriter.emptyRow 4
      (jlist [.int 1, .int 2, .int 3, .int 4, .int 5]) [2]).2 =
      ExcelDataWriter.calculateTotalColumns [2] ∧
    (ExcelDataWriter.addNestedData identityFilter true
      ExcelDataWriter.emptyRow 4
      (jlist [.int 1, .int 2, .int 3, .int 4, .int 5]) [2]).1 6 =
      ExcelDataWriter.emptyRow 6 ∧
    ((ExcelDataWriter.addNestedData identityFilter true
      ExcelDataWriter.emptyRow 4
      (jlist [.int 1, .int 2, .int 3, .int 4, .int 5]) [2]).1 5).isSome
      = true := by
  have h := C10_nested_writer_frame identityFilter true
    ExcelDataWriter.emptyRow 4 (jlist [.int 1, .int 2, .int 3, .int 4, .int 5])
    [2]
  exact ⟨h.1, h.2.1 6 (by decide), h.2.2 5 (by decide) (by decide)⟩

/-- C7: the claim says the column assigned to each field is determined solely
by the sorted key set, independent of report encounter order.  It is not:
the column of a field also depends on the widths of the fields sorted before
it, and those widths can vary with report order (the dimension-merge order
dependence).  With reports whose field `"a"` has 2 resp. 5 items and a
scalar field `"b"`, field `"b"` starts at column 4 after one merge order and
at column 7 after the other. -/
theorem C7_column_depends_on_report_order :
    lookupAssoc (ExcelDataWriter.rowPlan
      (ExcelGenerator.mergeStructureInfo (analyzedInfo reportC2items)
        (analyzedInfo reportC5items))) "b" = some 4 ∧
    lookupAssoc (ExcelDataWriter.rowPlan
      (ExcelGenerator.mergeStructureInfo (analyzedInfo reportC5items)
        (analyzedInfo reportC2items))) "b" = some 7 ∧
    lookupAssoc (ExcelDataWriter.rowPlan
        (ExcelGenerator.mergeStructureInfo (analyzedInfo reportC2items)
          (analyzedInfo reportC5items))) "b" ≠
      lookupAssoc (ExcelDataWriter.rowPlan
        (ExcelGenerator.mergeStructureInfo (analyzedInfo reportC5items)
          (analyzedInfo reportC2items))) "b" := by
  have h1 : lookupAssoc (ExcelDataWriter.rowPlan
      (ExcelGenerator.mergeStructureInfo (analyzedInfo reportC2items)
        (analyzedInfo reportC5items))) "b" = some 4 := rfl
  have h2 : lookupAssoc (ExcelDataWriter.rowPlan
      (ExcelGenerator.mergeStructureInfo (analyzedInfo reportC5items)
        (analyzedInfo reportC2items))) "b" = some 7 := rfl
  refine ⟨h1, h2, ?_⟩
  rw [h1, h2]
  decide

/-- C7 (amended): the header pass and the data-row pass iterate the schema's
fields in the same lexicographically sorted key order — the sequence of
planned fields is exactly `sorted(keys)`, the two passes assign identical
(field, start column) plans, and the data pass's final column cursor is
column 2 plus the sum of the per-field widths in sorted order.  The
assignment is a function of the sorted key set together with the per-field
widths; for a fixed accumulated schema it does not depend on which report is
being rendered, but the widths themselves can vary with report merge order
(see the counterexample). -/
theorem C7_sorted_iteration_and_plan_agreement :
    (∀ info : JsonAnalyzer.StructureInfo,
      (ExcelDataWriter.rowPlan info).map Prod.fst = sortedKeys info.keys ∧
      ExcelFormatter.headerPlan info = ExcelDataWriter.rowPlan info) ∧
    (∀ info₁ info₂ : JsonAnalyzer.StructureInfo,
      sortedKeys info₁.keys = sortedKeys info₂.keys →
      (∀ k, ExcelDataWriter.fieldWidth info₁ k =
        ExcelDataWriter.fieldWidth info₂ k) →
      ExcelDataWriter.rowPlan info₁ = ExcelDataWriter.rowPlan info₂) ∧
    (∀ (procName f : String → String) (af : Bool)
      (row : ExcelDataWriter.Row) (fileName : String) (fields : JObj)
      (info : JsonAnalyzer.StructureInfo),
      (ExcelDataWriter.addDataRow procName f af row fileName fields info).2 =
        2 + ((sortedKeys info.keys).map
          (ExcelDataWriter.fieldWidth info)).sum) := by
  refine ⟨fun info => ⟨planFields_map_fst info (sortedKeys info.keys) 2,
    headerPlan_eq_rowPlan info⟩, ?_, addDataRow_snd⟩
  intro info₁ info₂ hkeys hw
  unfold ExcelDataWriter.rowPlan
  rw [hkeys]
  exact planFields_congr hw (sortedKeys info₂.keys) 2

/-- C7 witness: the amended statement applied at the concrete merged schema
of the two example reports. -/
theorem C7_sorted_iteration_witness :
    (ExcelDataWriter.rowPlan (ExcelGenerator.mergeStructureInfo
        (analyzedInfo reportC2items) (analyzedInfo reportC5items))).map
        Prod.fst =
      sortedKeys (ExcelGenerator.mergeStructureInfo
        (analyzedInfo reportC2items) (analyzedInfo reportC5items)).keys ∧
    ExcelFormatter.headerPlan (ExcelGenerator.mergeStructureInfo
        (analyzedInfo reportC2items) (analyzedInfo reportC5items)) =
      ExcelDataWriter.rowPlan (ExcelGenerator.mergeStructureInfo
        (analyzedInfo reportC2items) (analyzedInfo reportC5items)) ∧
    ExcelDataWriter.rowPlan (ExcelGenerator.mergeStructureInfo
        (analyzedInfo reportC2items) (analyzedInfo reportC5items)) =
      ExcelDataWriter.rowPlan (ExcelGenerator.mergeStructureInfo
        (analyzedInfo reportC2items) (analyzedInfo reportC5items)) ∧
    (ExcelDataWriter.addDataRow identityFilter identityFilter true
        ExcelDataWriter.emptyRow "f.json" .nil
        (ExcelGenerator.mergeStructureInfo (analyzedInfo reportC2items)
          (analyzedInfo reportC5items))).2 =
      2 + ((sortedKeys (ExcelGenerator.mergeStructureInfo
          (analyzedInfo reportC2items) (analyzedInfo reportC5items)).keys).map
        (ExcelDataWriter.fieldWidth (ExcelGenerator.mergeStructureInfo
          (analyzedInfo reportC2items) (analyzedInfo reportC5items)))).sum :=
  ⟨(C7_sorted_iteration_and_plan_agreement.1 _).1,
    (C7_sorted_iteration_and_plan_agreement.1 _).2,
    C7_sorted_iteration_and_plan_agreement.2.1 _ _ rfl (fun _ => rfl),
    C7_sorted_iteration_and_plan_agreement.2.2 identityFilter identityFilter
      true ExcelDataWriter.emptyRow "f.json" .nil _⟩

/-- C2: for every scalar cell, if the field name contains `"date"`
(case-insensitively) and the string matches one of the fixed, ordered date
patterns, the cell becomes a typed date; otherwise, if the string is numeric
(optional leading minus, decimal point), it becomes a typed number of the
narrowest type; otherwise it stays text.  In particular `"2024-04-22"` in
field `"Test Date"` becomes the date 2024-04-22, `"12.5"` in a non-date
field becomes the float 12.5, and `"foo"` stays text. -/
theorem C2_scalar_cell_typing :
    (∀ (fieldName s : String) (y m d : Nat),
      ScalarTyping.containsDateCI fieldName = true →
      ScalarTyping.matchAnyDate s = some (y, m, d) →
      ScalarTyping.processScalarCell fieldName s = .dateCell y m d) ∧
    (∀ (fieldName s : String) (mant : Int) (den : Nat),
      (ScalarTyping.containsDateCI fieldName = false ∨
        ScalarTyping.matchAnyDate s = none) →
      ScalarTyping.parseNumeric s = some (mant, den) →
      ScalarTyping.processScalarCell fieldName s =
        (if mant % (den : Int) = 0 then .intCell (mant / den)
         else .floatCell mant den)) ∧
    (∀ fieldName s : String,
      (ScalarTyping.containsDateCI fieldName = false ∨
        ScalarTyping.matchAnyDate s = none) →
      ScalarTyping.parseNumeric s = none →
      ScalarTyping.processScalarCell fieldName s = .textCell s) ∧
    ScalarTyping.processScalarCell "Test Date" "2024-04-22" =
      .dateCell 2024 4 22 ∧
    ScalarTyping.processScalarCell "X" "12.5" = .floatCell 125 10 ∧
    ScalarTyping.processScalarCell "X" "foo" = .textCell "foo" := by
  refine ⟨?_, ?_, ?_, by decide, by decide, by decide⟩
  · intro fieldName s y m d hdate hmatch
    simp [ScalarTyping.processScalarCell, hdate, hmatch]
  · intro fieldName s mant den hcond hnum
    have hno : ScalarTyping.numericOrText s =
        (if mant % (den : Int) = 0 then ScalarTyping.Cell.intCell (mant / den)
         else ScalarTyping.Cell.floatCell mant den) := by
      unfold ScalarTyping.numericOrText
      rw [hnum]
    unfold ScalarTyping.processScalarCell
    rcases hcond with hd | hm
    · rw [hd, if_neg (by decide : ¬ false = true)]
      exact hno
    · cases hdate : ScalarTyping.containsDateCI fieldName
      · rw [if_neg (by decide : ¬ false = true)]
        exact hno
      · rw [if_pos rfl, hm]
        exact hno
  · intro fieldName s hcond hnum
    have hno : ScalarTyping.numericOrText s = ScalarTyping.Cell.textCell s := by
      unfold ScalarTyping.numericOrText
      rw [hnum]
    unfold ScalarTyping.processScalarCell
    rcases hcond with hd | hm
    · rw [hd, if_neg (by decide : ¬ false = true)]
      exact hno
    · cases hdate : ScalarTyping.containsDateCI fieldName
      · rw [if_neg (by decide : ¬ false = true)]
        exact hno
      · rw [if_pos rfl, hm]
        exact hno

/-- C2 witness: the date branch of the typing pipeline applied at the spec's
concrete example. -/
theorem C2_scalar_cell_typing_witness :
    ScalarTyping.containsDateCI "Test Date" = true ∧
    ScalarTyping.matchAnyDate "2024-04-22" = some (2024, 4, 22) ∧
    ScalarTyping.processScalarCell "Test Date" "2024-04-22" =
      .dateCell 2024 4 22 ∧
    ScalarTyping.parseNumeric "12.5" = some (125, 10) ∧
    ScalarTyping.processScalarCell "X" "12.5" =
      (if (125 : Int) % ((10 : Nat) : Int) = 0 then .intCell (125 / 10)
       else .floatCell 125 10) :=
  ⟨by decide, by decide,
    C2_scalar_cell_typing.1 "Test Date" "2024-04-22" 2024 4 22 (by decide)
      (by decide),
    by decide,
    C2_scalar_cell_typing.2.1 "X" "12.5" 125 10 (Or.inl (by decide))
      (by decide)⟩

theorem successMsg_ne_errorMsg (p e : String) :
    "Excel file created successfully at " ++ p ≠ "Error: " ++ e := by
  intro h
  have hd := congrArg String.data h
  rw [String.data_append, String.data_append] at hd
  have hL : ("Excel file created successfully at " : String).data =
      'E' :: 'x' :: ("cel file created successfully at " : String).data := rfl
  have hR : ("Error: " : String).data =
      'E' :: 'r' :: ("ror: " : String).data := rfl
  rw [hL, hR, List.cons_append, List.cons_append, List.cons_append,
    List.cons_append] at hd
  injection hd with h1 hd2
  injection hd2 with h2 hd3
  exact absurd h2 (by decide)

/-- C9: `create_excel_file` returns `True` exactly when the two-pass workbook
assembly runs to completion; any exception raised anywhere in the body is
caught at the top level and never propagates — the function then returns
`False` and, when a callback is provided, reports the human-readable
`Error: ...` message plus the diagnostic stack trace, and never emits the
success message after a failure. -/
theorem C9_create_excel_file_outcome :
    ∀ (procName f : String → String) (af : Bool)
      (allData : List (String × JValue)) (outputPath : String)
      (hasCallback : Bool),
      ((ExcelGenerator.createExcelFile procName f af allData outputPath
          hasCallback).1 = true ↔
        (ExcelGenerator.pipelineBody procName f af allData).isOk = true) ∧
      (∀ e, ExcelGenerator.pipelineBody procName f af allData = .error e →
        (ExcelGenerator.createExcelFile procName f af allData outputPath
          hasCallback).1 = false ∧
        (hasCallback = true →
          (ExcelGenerator.createExcelFile procName f af allData outputPath
            hasCallback).2 =
            [("status", "Error: " ++ e),
             ("debug", "EXCEPTION: " ++ ("Error: " ++ e)),
             ("debug", "STACK TRACE: " ++ ExcelGenerator.stackTrace e)] ∧
          ("status", "Excel file created successfully at " ++ outputPath) ∉
            (ExcelGenerator.createExcelFile procName f af allData outputPath
              hasCallback).2)) := by
  intro procName f af allData outputPath hasCallback
  unfold ExcelGenerator.createExcelFile
  cases hp : ExcelGenerator.pipelineBody procName f af allData with
  | ok wb =>
    refine ⟨by simp [Except.isOk, Except.toBool], ?_⟩
    intro e he
    cases he
  | error e0 =>
    refine ⟨by simp [Except.isOk, Except.toBool], ?_⟩
    intro e he
    injection he with he0
    subst he0
    refine ⟨rfl, ?_⟩
    intro hcb
    subst hcb
    refine ⟨rfl, ?_⟩
    intro hmem
    rcases List.mem_cons.mp hmem with h | hmem
    · exact successMsg_ne_errorMsg outputPath e0 (congrArg Prod.snd h)
    · rcases List.mem_cons.mp hmem with h | hmem
      · exact absurd (congrArg Prod.fst h)
          (by decide : ¬ ("status" : String) = "debug")
      · rcases List.mem_cons.mp hmem with h | hmem
        · exact absurd (congrArg Prod.fst h)
            (by decide : ¬ ("status" : String) = "debug")
        · exact absurd hmem (List.not_mem_nil _)

/-- C9 witness: the failure direction at a concrete failing input (an
untitled report, whose two passes derive different default sheet titles) and
the success direction at a concrete well-formed input. -/
theorem C9_create_excel_file_outcome_witness :
    (ExcelGenerator.pipelineBody identityFilter identityFilter true
      [("f.json", untitledReport)] =
        .error "KeyError: no analyzed structure for sheet title") ∧
    (ExcelGenerator.createExcelFile identityFilter identityFilter true
      [("f.json", untitledReport)] "out.xlsx" true).1 = false ∧
    (ExcelGenerator.createExcelFile identityFilter identityFilter true
      [("f.json", untitledReport)] "out.xlsx" true).2 =
      [("status", "Error: " ++ "KeyError: no analyzed structure for sheet title"),
       ("debug", "EXCEPTION: " ++
         ("Error: " ++ "KeyError: no analyzed structure for sheet title")),
       ("debug", "STACK TRACE: " ++ ExcelGenerator.stackTrace
         "KeyError: no analyzed structure for sheet title")] ∧
    ("status", "Excel file created successfully at " ++ "out.xlsx") ∉
      (ExcelGenerator.createExcelFile identityFilter identityFilter true
        [("f.json", untitledReport)] "out.xlsx" true).2 ∧
    ((ExcelGenerator.createExcelFile identityFilter identityFilter true
      [("ok.json", okReport)] "out.xlsx" true).1 = true ↔
      (ExcelGenerator.pipelineBody identityFilter identityFilter true
        [("ok.json", okReport)]).isOk = true) := by
  have hfail := C9_create_excel_file_outcome identityFilter identityFilter
    true [("f.json", untitledReport)] "out.xlsx" true
  have hok := C9_create_excel_file_outcome identityFilter identityFilter
    true [("ok.json", okReport)] "out.xlsx" true
  have he := (hfail.2 "KeyError: no analyzed structure for sheet title" rfl)
  exact ⟨rfl, he.1, (he.2 rfl).1, (he.2 rfl).2, hok.1⟩
